import Mathlib

/-! flytepropeller: adaptive backoff and resource-version caching.

A shallow embedding of

* `pkg/controller/nodes/task/k8s/plugin_manager.go`
  (`SimpleBackOffBlocker`, `ResourceCeilings`, `ResourceAwareBackOffHandler`,
  `IsResourceQuotaExceeded`, `GetResourceAndQuantityRequested`), and
* `pkg/controller/workflowstore/resource_version_caching.go`
  (`resourceVersionCaching.Get`, `Update`, `UpdateStatus`).

Conventions of the embedding.

* A Go `map[string]V` is an association list read by first match (`GoMap.load`) and
  written by replace-or-append (`GoMap.store`); indexing a map with a missing key
  gives the zero value of `V` (`GoMap.index`), as in Go.
* `time.Time` is a number of nanoseconds (`Int`); every reading of `time.Now()` is an
  explicit argument of the function that performs it.
* `resource.Quantity` is its exact numeric value (`ℚ`); the zero value is `0`.
* A Go closure `func() error` with side effects is a state-passing function
  `W → Option K8sError × W` on an arbitrary world type `W`.
* A Go panic is an explicit outcome.
-/

namespace GoMap

/-- Go `v, ok := m[key]`: the value stored under `key`, if any. -/
def load {V : Type} : List (String × V) → String → Option V
  | [], _ => none
  | (k, v) :: m, key => if k = key then some v else load m key

/-- Go `m[key]` as an expression: the stored value, or the zero value of `V`. -/
def index {V : Type} (zero : V) (m : List (String × V)) (key : String) : V :=
  (load m key).getD zero

/-- Go `m[key] = val`. -/
def store {V : Type} : List (String × V) → String → V → List (String × V)
  | [], key, val => [(key, val)]
  | (k, v) :: m, key, val =>
    if k = key then (key, val) :: m else (k, v) :: store m key val

/-- Go `delete(m, key)` (also `sync.Map.Delete`). -/
def delete {V : Type} (m : List (String × V)) (key : String) : List (String × V) :=
  m.filter (fun e => !decide (e.1 = key))

/-- The keys visited by `for key := range m`. -/
def keys {V : Type} (m : List (String × V)) : List String :=
  m.map Prod.fst

end GoMap

namespace K8s

/-- Nanoseconds, as in `time.Time` and `time.Duration`. -/
abbrev Time := Int

/-- Go `t.Before(u)`. -/
def Time.Before (t u : Time) : Bool := decide (t < u)

/-- The exact value of a `resource.Quantity`. -/
abbrev Quantity := ℚ

/-- Go `q.Cmp(y)`: `-1`, `0` or `1`. -/
def Quantity.Cmp (q y : Quantity) : Int :=
  if q < y then -1 else if y < q then 1 else 0

abbrev ResourceName := String

/-- The type `v1.ResourceList`, a `map[ResourceName]resource.Quantity`. -/
abbrev ResourceList := List (ResourceName × Quantity)

/-- The reasons of a Kubernetes API status error that the source distinguishes. -/
inductive StatusReason
  | Unknown
  | Forbidden
  | NotFound
  | AlreadyExists
  | Gone
  | Expired
  | BadRequest
  | Invalid
  | RequestEntityTooLarge
  deriving DecidableEq, Repr

/-- An `error` as returned by the cluster client: what `k8serrors.ReasonForError`
reports for it and the text `err.Error()`. -/
structure K8sError where
  reason : StatusReason
  message : String
  deriving DecidableEq, Repr

/-- The function `k8serrors.IsForbidden`. -/
def IsForbidden (err : K8sError) : Bool := decide (err.reason = StatusReason.Forbidden)

/-- Go `strings.HasPrefix` on character lists. -/
def hasPrefixChars : List Char → List Char → Bool
  | _, [] => true
  | [], _ :: _ => false
  | c :: s, p :: ps => decide (c = p) && hasPrefixChars s ps

/-- Go `strings.Contains` on character lists. -/
def containsChars : List Char → List Char → Bool
  | [], sub => hasPrefixChars [] sub
  | c :: s, sub => hasPrefixChars (c :: s) sub || containsChars s sub

/-- Go `strings.Contains`. -/
def stringsContains (s sub : String) : Bool := containsChars s.toList sub.toList

/-- An error built by flytestdlib `errors.Wrapf` (code, cause, text) or `errors.Errorf`
(code, text, the formatted time arguments). -/
inductive StdError
  | wrapf (code : String) (cause : K8sError) (msg : String)
  | errorf (code : String) (msg : String) (args : List Time)
  deriving DecidableEq, Repr

/-- The function `stdErrors.GetErrorCode`. -/
def StdError.code : StdError → String
  | .wrapf c _ _ => c
  | .errorf c _ _ => c

/-- Source: `IsBackoffError`. -/
def IsBackoffError (err : StdError) : Bool := decide (err.code = "BackOff")

/-- Source: `const backOffBase = time.Second * 2`, in nanoseconds. -/
def backOffBase : Int := 2 * 1000000000

/-- Source: `const maxBackoffTime = time.Minute * 10`, in nanoseconds. -/
def maxBackoffTime : Int := 10 * 60 * 1000000000

/-- Arithmetic of the Go type `int` (64 bits, two's complement). -/
def wrapInt64 (x : Int) : Int := (x + 2 ^ 63) % 2 ^ 64 - 2 ^ 63

/-- Source: `type SimpleBackOffBlocker struct`. -/
structure SimpleBackOffBlocker where
  backOffExponent : Int
  nextEligibleTime : Time
  deriving DecidableEq, Repr

/-- Source: `time.Duration(math.Pow(float64(backOffBase), float64(b.backOffExponent)))`.
For an exponent `n` with `backOffBase ^ n < 2 ^ 63` (that is `n ≤ 2`) the power is
computed exactly in `float64` and converts exactly. A negative exponent gives a value
in `(0, 1)`, truncated to `0`. For every other exponent the `float64` value is at least
`2 ^ 63`, where Go leaves the result of the conversion to `int64` to the platform:
it is the parameter `ovf`. -/
def powDuration (ovf : Int) (n : Int) : Int :=
  if n < 0 then 0
  else if backOffBase ^ n.toNat < 2 ^ 63 then backOffBase ^ n.toNat
  else ovf

/-- The value of `backOffDuration` in `SimpleBackOffBlocker.handle` after the cap. -/
def backOffDuration (ovf : Int) (n : Int) : Int :=
  if powDuration ovf n > maxBackoffTime then maxBackoffTime else powDuration ovf n

/-- The result of one call of a handler: the returned error, the receiver afterwards and
the world afterwards. -/
structure BlockerResult (W : Type) where
  err : Option StdError
  blocker : SimpleBackOffBlocker
  world : W

/-- Source: `SimpleBackOffBlocker.handle`. `now` is the reading of `time.Now()` on entry,
`later` the reading taken after the operation returned. -/
def SimpleBackOffBlocker.handle {W : Type} (b : SimpleBackOffBlocker) (ovf : Int)
    (now later : Time) (operation : W → Option K8sError × W) (w : W) : BlockerResult W :=
  if Time.Before b.nextEligibleTime now then
    match operation w with
    | (none, w1) =>
      { err := none, blocker := { backOffExponent := 0, nextEligibleTime := later }, world := w1 }
    | (some err, w1) =>
      { err := some (StdError.wrapf "BackOff" err "Failed to still not"),
        blocker := { backOffExponent := wrapInt64 (b.backOffExponent + 1),
                     nextEligibleTime := later + backOffDuration ovf b.backOffExponent },
        world := w1 }
  else
    { err := some (StdError.errorf "BackOff" "need to wait more" []), blocker := b, world := w }

/-- Source: `SimpleBackOffBlocker.isActive`. -/
def SimpleBackOffBlocker.isActive (b : SimpleBackOffBlocker) (t : Time) : Bool :=
  Time.Before b.nextEligibleTime t

/-- Source: `SimpleBackOffBlocker.getBlockExpirationTime`. -/
def SimpleBackOffBlocker.getBlockExpirationTime (b : SimpleBackOffBlocker) : Time :=
  b.nextEligibleTime

/-- Source: `SimpleBackOffBlocker.reset`; `now` is its reading of `time.Now()`. -/
def SimpleBackOffBlocker.reset (_b : SimpleBackOffBlocker) (now : Time) : SimpleBackOffBlocker :=
  { backOffExponent := 0, nextEligibleTime := now }

/-- Source: `type ResourceCeilings struct`. -/
structure ResourceCeilings where
  resourceCeilings : ResourceList
  deriving DecidableEq, Repr

/-- Source: `ResourceCeilings.isEligible`. The ceiling is read with a plain map index,
so a dimension without an entry reads as the zero quantity. -/
def ResourceCeilings.isEligible (r : ResourceCeilings) (requestedResourceList : ResourceList) :
    Bool :=
  requestedResourceList.foldl
    (fun eligibility e =>
      eligibility && decide (Quantity.Cmp e.2 (GoMap.index 0 r.resourceCeilings e.1) = -1))
    true

/-- Source: `ResourceCeilings.update`. -/
def ResourceCeilings.update (r : ResourceCeilings) (reqResource : ResourceName)
    (reqQuantity : Quantity) : ResourceCeilings :=
  match GoMap.load r.resourceCeilings reqResource with
  | none => { resourceCeilings := GoMap.store r.resourceCeilings reqResource reqQuantity }
  | some currentCeiling =>
    if Quantity.Cmp reqQuantity currentCeiling = -1 then
      { resourceCeilings := GoMap.store r.resourceCeilings reqResource reqQuantity }
    else r

/-- Source: `ResourceCeilings.updateAll`. -/
def ResourceCeilings.updateAll (r : ResourceCeilings) (resources : ResourceList) :
    ResourceCeilings :=
  resources.foldl (fun acc e => acc.update e.1 e.2) r

/-- Source: `ResourceCeilings.inf`, the value of `resource.MustParse("1Ei")`. -/
def ResourceCeilings.inf : Quantity := 2 ^ 60

/-- Source: `ResourceCeilings.reset`. -/
def ResourceCeilings.reset (r : ResourceCeilings) (resource : ResourceName) : ResourceCeilings :=
  { resourceCeilings := GoMap.store r.resourceCeilings resource ResourceCeilings.inf }

/-- Source: `ResourceCeilings.resetAll`. -/
def ResourceCeilings.resetAll (r : ResourceCeilings) : ResourceCeilings :=
  (GoMap.keys r.resourceCeilings).foldl (fun acc resource => acc.reset resource) r

/-- Source: `IsResourceQuotaExceeded`. -/
def IsResourceQuotaExceeded (err : K8sError) : Bool :=
  IsForbidden err && stringsContains err.message "exceeded quota"

/-- The Go runtime panics that `GetResourceAndQuantityRequested` can raise. -/
inductive Panic
  | indexOutOfRange (index length : Nat)
  | assignmentToNilMap
  | mustParse (text : String)
  deriving DecidableEq, Repr

/-- The character class `[a-zA-Z]`. -/
def isLetter (c : Char) : Bool :=
  (decide ('a' ≤ c) && decide (c ≤ 'z')) || (decide ('A' ≤ c) && decide (c ≤ 'Z'))

/-- The character class `[a-zA-Z0-9]`. -/
def isLetterOrDigit (c : Char) : Bool :=
  isLetter c || (decide ('0' ≤ c) && decide (c ≤ '9'))

/-- Consume a literal at the head of the input. -/
def dropLiteral : List Char → List Char → Option (List Char)
  | s, [] => some s
  | [], _ :: _ => none
  | c :: s, p :: ps => if c = p then dropLiteral s ps else none

/-- The literal head of the pattern, up to the unescaped dot. -/
def requestedLiteral : List Char := "requested: limits".toList

/-- One match of the pattern
`(?P<key>requested): limits.(?P<resource_type>[a-zA-Z]+)=(?P<quantity_expr>[a-zA-Z0-9]+)`
anchored at the head of the input: the whole match followed by the three groups. The dot
is any character but a line feed; both repetitions are greedy, and since `=` is not a
letter only the longest run of letters can be followed by it. -/
def matchAt (s : List Char) : Option (List String) :=
  match dropLiteral s requestedLiteral with
  | none => none
  | some [] => none
  | some (dot :: s1) =>
    if dot = Char.ofNat 10 then none
    else if s1.takeWhile isLetter = [] then none
    else
      match s1.dropWhile isLetter with
      | [] => none
      | eq :: s3 =>
        if eq = '=' then
          if s3.takeWhile isLetterOrDigit = [] then none
          else
            some [String.mk (requestedLiteral ++ dot :: s1.takeWhile isLetter
                    ++ '=' :: s3.takeWhile isLetterOrDigit),
                  "requested",
                  String.mk (s1.takeWhile isLetter),
                  String.mk (s3.takeWhile isLetterOrDigit)]
        else none

/-- Go `re.FindAllStringSubmatch(text, -1)`: the successive non-overlapping matches, leftmost
first. `skip` counts the characters of the last match still to be passed over. -/
def findAllFrom : List Char → Nat → List (List String)
  | [], _ => []
  | _ :: s, skip + 1 => findAllFrom s skip
  | c :: s, 0 =>
    match matchAt (c :: s) with
    | some mat => mat :: findAllFrom s ((mat.headD "").length - 1)
    | none => findAllFrom s 0

/-- Go `re.FindAllStringSubmatch(text, -1)` for the pattern of the source. -/
def FindAllStringSubmatch (text : String) : List (List String) :=
  findAllFrom text.toList 0

/-- Go `re.SubexpNames()` for the pattern of the source. -/
def SubexpNames : List String := ["", "key", "resource_type", "quantity_expr"]

/-- Go `s[i] = v` on a slice: panics unless `i < len(s)`. -/
def sliceSet {α : Type} (s : List α) (i : Nat) (v : α) : Except Panic (List α) :=
  if i < s.length then Except.ok (s.set i v) else Except.error (Panic.indexOutOfRange i s.length)

/-- The inner loop of the source: `temp[i][name] = mat[j]` for every named group. -/
def fillFrom (mat : List String) : List String → Nat → List (String × String) →
    List (String × String)
  | [], _, m => m
  | name :: names, j, m =>
    if j ≠ 0 ∧ name ≠ "" then fillFrom mat names (j + 1) (GoMap.store m name (mat.getD j ""))
    else fillFrom mat names (j + 1) m

/-- The first loop of the source over `matches`, writing into the slice `temp`. -/
def collectSubmatches : List (List String) → Nat → List (List (String × String)) →
    Except Panic (List (List (String × String)))
  | [], _, temp => Except.ok temp
  | mat :: rest, i, temp =>
    match sliceSet temp i [] with
    | Except.error p => Except.error p
    | Except.ok temp1 =>
      match sliceSet temp1 i (fillFrom mat SubexpNames 0 []) with
      | Except.error p => Except.error p
      | Except.ok temp2 => collectSubmatches rest (i + 1) temp2

/-- Go `m[key] = val` on a map variable that may be nil (`none`). -/
def mapAssign (m : Option ResourceList) (key : ResourceName) (val : Quantity) :
    Except Panic (Option ResourceList) :=
  match m with
  | none => Except.error Panic.assignmentToNilMap
  | some l => Except.ok (some (GoMap.store l key val))

/-- The second loop of the source over `temp`. `mustParse` is `resource.MustParse`, with
`none` for a text on which it panics. -/
def collectRequested (mustParse : String → Option Quantity) :
    List (List (String × String)) → Option ResourceList → Except Panic (Option ResourceList)
  | [], requestedResources => Except.ok requestedResources
  | part :: rest, requestedResources =>
    if GoMap.index "" part "key" ≠ "requested" then
      collectRequested mustParse rest requestedResources
    else
      match mustParse (GoMap.index "" part "quantity_expr") with
      | none => Except.error (Panic.mustParse (GoMap.index "" part "quantity_expr"))
      | some resourceQuantity =>
        match mapAssign requestedResources (GoMap.index "" part "resource_type")
            resourceQuantity with
        | Except.error p => Except.error p
        | Except.ok m => collectRequested mustParse rest m

/-- Source: `GetResourceAndQuantityRequested`, on the text `err.Error()`. `temp` starts as
the nil slice and `requestedResources` as the nil map, as declared in the source. A nil
map that is returned is read as the empty list. -/
def GetResourceAndQuantityRequested (mustParse : String → Option Quantity) (err : K8sError) :
    Except Panic ResourceList :=
  match collectSubmatches (FindAllStringSubmatch err.message) 0 [] with
  | Except.error p => Except.error p
  | Except.ok temp =>
    match collectRequested mustParse temp none with
    | Except.error p => Except.error p
    | Except.ok requestedResources => Except.ok (requestedResources.getD [])

/-- Source: `type ResourceAwareBackOffHandler struct`. -/
structure ResourceAwareBackOffHandler extends SimpleBackOffBlocker, ResourceCeilings
  deriving DecidableEq, Repr

/-- The handler that `getBackOffHandler` registers for a key it has not seen, created at
time `now`. -/
def freshBackOffHandler (now : Time) : ResourceAwareBackOffHandler :=
  { backOffExponent := 0, nextEligibleTime := now, resourceCeilings := [] }

/-- How a call ended: it returned (an error or nil), or it panicked. -/
inductive Outcome
  | returned (err : Option StdError)
  | panicked (p : Panic)
  deriving DecidableEq, Repr

/-- The result of `ResourceAwareBackOffHandler.handle`. -/
structure HandleResult (W : Type) where
  outcome : Outcome
  handler : ResourceAwareBackOffHandler
  world : W

/-- The format string of the error that `ResourceAwareBackOffHandler.handle` returns when
it refuses a call. -/
def backOffActiveMessage : String :=
  "Failed to execute the operation due to backoff is active [attempted at: %v]" ++
    "[block expires at: %v] and the requested resource(s) exceeds resource ceiling(s)"

/-- Source: `ResourceAwareBackOffHandler.handle`. `now` is the reading of `time.Now()` on
entry and `resetNow` the one taken by `SimpleBackOffBlocker.reset`. -/
def ResourceAwareBackOffHandler.handle {W : Type} (h : ResourceAwareBackOffHandler)
    (mustParse : String → Option Quantity) (now resetNow : Time)
    (operation : W → Option K8sError × W) (w : W) (requestedResourceList : ResourceList) :
    HandleResult W :=
  if !h.toSimpleBackOffBlocker.isActive now ||
      h.toResourceCeilings.isEligible requestedResourceList then
    match operation w with
    | (some err, w1) =>
      if IsResourceQuotaExceeded err then
        match GetResourceAndQuantityRequested mustParse err with
        | Except.error p => { outcome := Outcome.panicked p, handler := h, world := w1 }
        | Except.ok newCeiling =>
          { outcome := Outcome.returned
              (some (StdError.wrapf "BackOff" err "Failed to execute the operation")),
            handler :=
              { h with toResourceCeilings := h.toResourceCeilings.updateAll newCeiling },
            world := w1 }
      else
        { outcome := Outcome.returned
            (some (StdError.wrapf "BackOff" err "Failed to execute the operation")),
          handler := h, world := w1 }
    | (none, w1) =>
      { outcome := Outcome.returned none,
        handler :=
          { toSimpleBackOffBlocker := h.toSimpleBackOffBlocker.reset resetNow,
            toResourceCeilings := h.toResourceCeilings.resetAll },
        world := w1 }
  else
    { outcome := Outcome.returned
        (some (StdError.errorf "BackOff" backOffActiveMessage
          [now, h.toSimpleBackOffBlocker.getBlockExpirationTime])),
      handler := h, world := w }

/-- An operation instrumented with a counter of its invocations. -/
def counted {W : Type} (operation : W → Option K8sError × W) :
    W × Nat → Option K8sError × (W × Nat) :=
  fun s => ((operation s.1).1, ((operation s.1).2, s.2 + 1))

/-! Concrete inputs used to evaluate the definitions. -/

/-- A create operation that succeeds. -/
def succeeds : Unit → Option K8sError × Unit := fun w => (none, w)

/-- A create operation that fails with `err`. -/
def failsWith (err : K8sError) : Unit → Option K8sError × Unit := fun w => (some err, w)

/-- A quantity parser that reads the texts `"2"` and `"4"`. -/
def parseSmall (text : String) : Option Quantity :=
  if text = "2" then some 2 else if text = "4" then some 4 else none

/-- A handler whose window is open until time `10`, with the ceiling `cpu = c`. -/
def windowedHandler (c : Quantity) : ResourceAwareBackOffHandler :=
  { backOffExponent := 1, nextEligibleTime := 10, resourceCeilings := [("cpu", c)] }

/-- A handler whose window ended at time `0`, with the ceiling `cpu = c`. -/
def elapsedHandler (c : Quantity) : ResourceAwareBackOffHandler :=
  { backOffExponent := 1, nextEligibleTime := 0, resourceCeilings := [("cpu", c)] }

/-- A quota rejection as the API server words it. -/
def quotaRejection : K8sError :=
  { reason := StatusReason.Forbidden,
    message := "pods p is forbidden: exceeded quota: q, requested: limits.cpu=4, " ++
      "used: limits.cpu=8, limited: limits.cpu=10" }

end K8s

namespace workflowstore

/-- The type `metav1.ManagedFieldsEntry`; the zero value has every field empty. -/
structure ManagedFieldsEntry where
  Manager : String
  Operation : String
  APIVersion : String
  FieldsType : String
  deriving DecidableEq, Repr

/-- The zero value `metav1.ManagedFieldsEntry{}`. -/
def ManagedFieldsEntry.zero : ManagedFieldsEntry :=
  { Manager := "", Operation := "", APIVersion := "", FieldsType := "" }

/-- The workflow status, reduced to what `IsTerminated()` reports for it. -/
structure WorkflowStatus where
  terminated : Bool
  deriving DecidableEq, Repr

/-- The method `IsTerminated` of the workflow status (declared in `v1alpha1`). -/
def WorkflowStatus.IsTerminated (s : WorkflowStatus) : Bool := s.terminated

/-- The fields of `v1alpha1.FlyteWorkflow` that the store reads or writes. -/
structure FlyteWorkflow where
  Namespace : String
  Name : String
  ResourceVersion : String
  ManagedFields : List ManagedFieldsEntry
  Status : WorkflowStatus
  deriving DecidableEq, Repr

/-- The method `GetExecutionStatus` of a workflow. -/
def FlyteWorkflow.GetExecutionStatus (w : FlyteWorkflow) : WorkflowStatus := w.Status

/-- The errors of the store: the two sentinels of the package and any other error. -/
inductive StoreError
  | ErrStaleWorkflowError
  | ErrWorkflowTerminated
  | other (msg : String)
  deriving DecidableEq, Repr

abbrev PriorityClass := Int

/-- What a store call returns: `(*FlyteWorkflow, error)`. -/
abbrev StoreResult := Except StoreError (Option FlyteWorkflow)

/-- The interface `FlyteWorkflow` of the wrapped store, over a world `W`. A call reads the
object it is given and returns a result of its own; it does not write to its argument. -/
structure Underlying (W : Type) where
  Get : W → String → String → StoreResult × W
  UpdateStatus : W → FlyteWorkflow → PriorityClass → StoreResult × W
  Update : W → FlyteWorkflow → PriorityClass → StoreResult × W

/-- The interface `fastcheck.Filter`, over a filter state `F`. -/
structure Filter (F : Type) where
  Contains : F → String → Bool
  Add : F → String → F

/-- Source: `type resourceVersionMetrics struct`, each counter as the number of `Inc`s. -/
structure resourceVersionMetrics where
  workflowStaleCount : Nat
  workflowEvictedCount : Nat
  workflowRedundantUpdatesCount : Nat
  deriving DecidableEq, Repr

/-- Source: `type resourceVersionCaching struct`, its mutable part. -/
structure resourceVersionCaching (F : Type) where
  metrics : resourceVersionMetrics
  lastUpdatedResourceVersionCache : List (String × String)
  terminatedFilter : F

/-- Source: `resourceVersionKey`. -/
def resourceVersionKey (ns name : String) : String := ns ++ "/" ++ name

/-- Source: `resourceVersionCaching.updateRevisionCache`. -/
def updateRevisionCache {F : Type} (r : resourceVersionCaching F) (ns name : String)
    (resourceVersion : String) (isTerminated : Bool) : resourceVersionCaching F :=
  if isTerminated then
    { r with
      metrics := { r.metrics with workflowEvictedCount := r.metrics.workflowEvictedCount + 1 },
      lastUpdatedResourceVersionCache :=
        GoMap.delete r.lastUpdatedResourceVersionCache (resourceVersionKey ns name) }
  else
    { r with
      lastUpdatedResourceVersionCache :=
        GoMap.store r.lastUpdatedResourceVersionCache (resourceVersionKey ns name)
          resourceVersion }

/-- Source: `resourceVersionCaching.isResourceVersionSameAsPrevious`. -/
def isResourceVersionSameAsPrevious {F : Type} (r : resourceVersionCaching F) (ns name : String)
    (resourceVersion : String) : Bool × resourceVersionCaching F :=
  match GoMap.load r.lastUpdatedResourceVersionCache (resourceVersionKey ns name) with
  | some strV =>
    if strV = resourceVersion then
      (true,
        { r with
          metrics := { r.metrics with workflowStaleCount := r.metrics.workflowStaleCount + 1 } })
    else (false, r)
  | none => (false, r)

/-- The result of a call of the caching store. `workflow` is the caller's object after the
call (for `Get`, which receives none, it is absent). -/
structure CallResult (F W : Type) where
  result : StoreResult
  store : resourceVersionCaching F
  world : W
  workflow : Option FlyteWorkflow

/-- Source: `resourceVersionCaching.Get`. -/
def Get {F W : Type} (flt : Filter F) (u : Underlying W) (r : resourceVersionCaching F) (world : W)
    (ns name : String) : CallResult F W :=
  if flt.Contains r.terminatedFilter (resourceVersionKey ns name) then
    { result := Except.error StoreError.ErrWorkflowTerminated, store := r, world := world,
      workflow := none }
  else
    match u.Get world ns name with
    | (Except.error err, world1) =>
      { result := Except.error err, store := r, world := world1, workflow := none }
    | (Except.ok none, world1) =>
      { result := Except.ok none, store := r, world := world1, workflow := none }
    | (Except.ok (some w), world1) =>
      if (isResourceVersionSameAsPrevious r ns name w.ResourceVersion).1 then
        { result := Except.error StoreError.ErrStaleWorkflowError,
          store := (isResourceVersionSameAsPrevious r ns name w.ResourceVersion).2,
          world := world1, workflow := none }
      else
        { result := Except.ok (some w),
          store := (isResourceVersionSameAsPrevious r ns name w.ResourceVersion).2,
          world := world1, workflow := none }

/-- The part of `Update` and `UpdateStatus` that follows a successful write returning
`newWF`: the same statements in both functions of the source. -/
def afterWrite {F : Type} (flt : Filter F) (r : resourceVersionCaching F)
    (workflow newWF : FlyteWorkflow) : resourceVersionCaching F :=
  let r1 :=
    if newWF.ResourceVersion ≠ workflow.ResourceVersion then
      updateRevisionCache r workflow.Namespace workflow.Name workflow.ResourceVersion
        workflow.Status.IsTerminated
    else
      { r with
        metrics :=
          { r.metrics with
            workflowRedundantUpdatesCount := r.metrics.workflowRedundantUpdatesCount + 1 } }
  if newWF.GetExecutionStatus.IsTerminated then
    { r1 with
      terminatedFilter :=
        flt.Add r1.terminatedFilter (resourceVersionKey workflow.Namespace workflow.Name) }
  else r1

/-- Source: `resourceVersionCaching.UpdateStatus`. -/
def UpdateStatus {F W : Type} (flt : Filter F) (u : Underlying W) (r : resourceVersionCaching F)
    (world : W) (workflow : FlyteWorkflow) (priorityClass : PriorityClass) : CallResult F W :=
  match u.UpdateStatus world workflow priorityClass with
  | (Except.error err, world1) =>
    { result := Except.error err, store := r, world := world1, workflow := some workflow }
  | (Except.ok none, world1) =>
    { result := Except.ok none, store := r, world := world1, workflow := some workflow }
  | (Except.ok (some newWF), world1) =>
    { result := Except.ok (some newWF), store := afterWrite flt r workflow newWF,
      world := world1, workflow := some workflow }

/-- The first statement of `Update`: a non-empty `ManagedFields` is cut to its first entry,
which is overwritten with the zero entry. -/
def clearManagedFields (workflow : FlyteWorkflow) : FlyteWorkflow :=
  if workflow.ManagedFields.length > 0 then
    { workflow with ManagedFields := (workflow.ManagedFields.take 1).set 0 ManagedFieldsEntry.zero }
  else workflow

/-- Source: `resourceVersionCaching.Update`. -/
def Update {F W : Type} (flt : Filter F) (u : Underlying W) (r : resourceVersionCaching F)
    (world : W) (workflow : FlyteWorkflow) (priorityClass : PriorityClass) : CallResult F W :=
  match u.Update world (clearManagedFields workflow) priorityClass with
  | (Except.error err, world1) =>
    { result := Except.error err, store := r, world := world1,
      workflow := some (clearManagedFields workflow) }
  | (Except.ok none, world1) =>
    { result := Except.ok none, store := r, world := world1,
      workflow := some (clearManagedFields workflow) }
  | (Except.ok (some newWF), world1) =>
    { result := Except.ok (some newWF),
      store := afterWrite flt r (clearManagedFields workflow) newWF,
      world := world1, workflow := some (clearManagedFields workflow) }

/-! Concrete inputs used to evaluate the definitions. -/

/-- A filter that keeps every key it was given. -/
def listFilter : Filter (List String) :=
  { Contains := fun f key => f.contains key, Add := fun f key => key :: f }

/-- An underlying store that answers every call with the workflow `stored` and counts the
calls it receives. -/
def constUnderlying (stored : FlyteWorkflow) : Underlying Nat :=
  { Get := fun n _ _ => (Except.ok (some stored), n + 1),
    UpdateStatus := fun n _ _ => (Except.ok (some stored), n + 1),
    Update := fun n _ _ => (Except.ok (some stored), n + 1) }

/-- A running workflow `ns/wf` with the version token `token`. -/
def runningWorkflow (token : String) : FlyteWorkflow :=
  { Namespace := "ns", Name := "wf", ResourceVersion := token, ManagedFields := [],
    Status := { terminated := false } }

/-- A caching store with the given version cache, no terminated key and zeroed counters. -/
def storeWithCache (cache : List (String × String)) : resourceVersionCaching (List String) :=
  { metrics := { workflowStaleCount := 0, workflowEvictedCount := 0,
                 workflowRedundantUpdatesCount := 0 },
    lastUpdatedResourceVersionCache := cache, terminatedFilter := [] }

end workflowstore

namespace K8s

/-! The plugin manager: metadata, launch, check and the persisted state machine. -/

/-- Source: `const finalizer`. -/
def finalizer : String := "flyte/flytek8s"

/-- Source: `const pluginStateVersion`. -/
def pluginStateVersion : Nat := 1

/-- Source: `type PluginPhase uint8`. -/
abbrev PluginPhase := Nat

/-- Source: `PluginPhaseNotStarted`, the first constant of the `iota` block. -/
def PluginPhaseNotStarted : PluginPhase := 0

/-- Source: `PluginPhaseAllocationTokenAcquired`. -/
def PluginPhaseAllocationTokenAcquired : PluginPhase := 1

/-- Source: `PluginPhaseStarted`. -/
def PluginPhaseStarted : PluginPhase := 2

/-- Source: `type PluginState struct`. -/
structure PluginState where
  Phase : PluginPhase
  deriving DecidableEq, Repr

/-- The task phases of `pluginsCore`. -/
inductive Phase
  | Undefined
  | NotReady
  | WaitingForResources
  | Queued
  | Initializing
  | Running
  | Success
  | RetryableFailure
  | PermanentFailure
  deriving DecidableEq, Repr

/-- The method `Phase.IsTerminal` of `pluginsCore`: success or one of the two failures. -/
def Phase.IsTerminal : Phase → Bool
  | Phase.Success => true
  | Phase.RetryableFailure => true
  | Phase.PermanentFailure => true
  | _ => false

/-- A `pluginsCore.PhaseInfo`: the phase, the error code of a failure and the reason text. -/
structure PhaseInfo where
  phase : Phase
  code : String
  reason : String
  deriving DecidableEq, Repr

/-- The value `pluginsCore.PhaseInfoUndefined`. -/
def PhaseInfoUndefined : PhaseInfo := { phase := Phase.Undefined, code := "", reason := "" }

/-- The constructor `pluginsCore.PhaseInfoQueued`. -/
def PhaseInfoQueued (reason : String) : PhaseInfo :=
  { phase := Phase.Queued, code := "", reason := reason }

/-- The constructor `pluginsCore.PhaseInfoWaitingForResources`. -/
def PhaseInfoWaitingForResources (reason : String) : PhaseInfo :=
  { phase := Phase.WaitingForResources, code := "", reason := reason }

/-- The constructor `pluginsCore.PhaseInfoRetryableFailure`. -/
def PhaseInfoRetryableFailure (code reason : String) : PhaseInfo :=
  { phase := Phase.RetryableFailure, code := code, reason := reason }

/-- The constructor `pluginsCore.PhaseInfoFailure`, a permanent failure. -/
def PhaseInfoFailure (code reason : String) : PhaseInfo :=
  { phase := Phase.PermanentFailure, code := code, reason := reason }

/-- A `pluginsCore.Transition`, read through `Info()`. -/
structure Transition where
  info : PhaseInfo
  deriving DecidableEq, Repr

/-- The function `pluginsCore.DoTransition`. -/
def DoTransition (info : PhaseInfo) : Transition := { info := info }

/-- The value `pluginsCore.UnknownTransition`. -/
def UnknownTransition : Transition := { info := PhaseInfoUndefined }

/-- The text of a status reason (`metav1.StatusReason` is a string type). -/
def StatusReason.text : StatusReason → String
  | StatusReason.Unknown => ""
  | StatusReason.Forbidden => "Forbidden"
  | StatusReason.NotFound => "NotFound"
  | StatusReason.AlreadyExists => "AlreadyExists"
  | StatusReason.Gone => "Gone"
  | StatusReason.Expired => "Expired"
  | StatusReason.BadRequest => "BadRequest"
  | StatusReason.Invalid => "Invalid"
  | StatusReason.RequestEntityTooLarge => "RequestEntityTooLarge"

/-- The text `err.Error()` of an error of flytestdlib. -/
def StdError.Error : StdError → String
  | StdError.wrapf code cause msg => "[" ++ code ++ "] " ++ msg ++ ", caused by: " ++ cause.message
  | StdError.errorf code msg _ => "[" ++ code ++ "] " ++ msg

/-- The function `k8serrors.ReasonForError` on an error returned by the backoff handler.
Whether it looks through a wrapping error to its cause depends on the version of the
library: `unwrap` says so. -/
def StdError.reason (unwrap : Bool) : StdError → StatusReason
  | StdError.wrapf _ cause _ => if unwrap then cause.reason else StatusReason.Unknown
  | StdError.errorf _ _ _ => StatusReason.Unknown

/-- The values of the Go type `error` that the plugin manager returns. -/
inductive TaskError
  | k8s (e : K8sError)
  | std (e : StdError)
  | other (msg : String)
  | wrapf (code : String) (cause : TaskError) (msg : String)
  deriving DecidableEq, Repr

/-- The text `err.Error()`. -/
def TaskError.Error : TaskError → String
  | TaskError.k8s e => e.message
  | TaskError.std e => e.Error
  | TaskError.other msg => msg
  | TaskError.wrapf code cause msg => "[" ++ code ++ "] " ++ msg ++ ", caused by: " ++ cause.Error

/-- The panics of the plugin manager: one raised by the parser of the quota message, or a
nil pointer dereference. -/
inductive RuntimePanic
  | parser (p : Panic)
  | nilPointerDereference
  deriving DecidableEq, Repr

/-- How a call of the plugin manager ends: `(Transition, error)` or a panic. -/
inductive CallOutcome
  | returned (t : Transition) (err : Option TaskError)
  | panicked (p : RuntimePanic)
  deriving DecidableEq, Repr

/-- The type `metav1.OwnerReference`, reduced to the fields the source reads. -/
structure OwnerReference where
  Kind : String
  Name : String
  Controller : Bool
  deriving DecidableEq, Repr

/-- What `AddObjectMetadata` reads from `pluginsCore.TaskExecutionMetadata`. -/
structure TaskExecutionMetadata where
  Namespace : String
  Annotations : List (String × String)
  Labels : List (String × String)
  OwnerReference : OwnerReference
  GeneratedName : String
  deriving DecidableEq, Repr

/-- The fields of `config.K8sPluginConfig` that the source reads. -/
structure K8sPluginConfig where
  DefaultAnnotations : List (String × String)
  DefaultLabels : List (String × String)
  InjectFinalizer : Bool
  deriving DecidableEq, Repr

/-- A `k8s.Resource`: its object metadata, its kind, and, when the object is a `*v1.Pod`,
the `Resources.Limits` of each of its containers. -/
structure Resource where
  GroupVersionKind : String
  Namespace : String
  Name : String
  Annotations : List (String × String)
  Labels : List (String × String)
  OwnerReferences : List OwnerReference
  Finalizers : List String
  DeletionTimestamp : Option Time
  ResourceVersion : String
  podLimits : Option (List ResourceList)
  deriving DecidableEq, Repr

/-- The function `utils.UnionMaps` of flyteplugins: the maps are copied into one map in
the order given, so a later map overrides an earlier one on a shared key. -/
def UnionMaps (maps : List (List (String × String))) : List (String × String) :=
  maps.foldl (fun composite m => m.foldl (fun acc e => GoMap.store acc e.1 e.2) composite) []

/-- The function `utils.CopyMap` of flyteplugins. -/
def CopyMap (m : List (String × String)) : List (String × String) := m

/-- Source: `AddObjectMetadata`. -/
def AddObjectMetadata (taskCtx : TaskExecutionMetadata) (o : Resource) (cfg : K8sPluginConfig) :
    Resource :=
  let o1 := { o with Namespace := taskCtx.Namespace }
  let o2 := { o1 with
    Annotations := UnionMaps [cfg.DefaultAnnotations, o1.Annotations, CopyMap taskCtx.Annotations] }
  let o3 := { o2 with
    Labels := UnionMaps [o2.Labels, CopyMap taskCtx.Labels, cfg.DefaultLabels] }
  let o4 := { o3 with OwnerReferences := [taskCtx.OwnerReference] }
  let o5 := { o4 with Name := taskCtx.GeneratedName }
  if cfg.InjectFinalizer then { o5 with Finalizers := o5.Finalizers ++ [finalizer] } else o5

/-- Source: `IsK8sObjectNotExists`. -/
def IsK8sObjectNotExists (err : K8sError) : Bool :=
  decide (err.reason = StatusReason.NotFound) || decide (err.reason = StatusReason.Gone) ||
    decide (err.reason = StatusReason.Expired)

/-- The method `String` of `k8stypes.NamespacedName`. -/
def NamespacedName (ns name : String) : String := ns ++ "/" ++ name

end K8s

namespace K8s

/-- Source: `type BackOffHandlerMap`, the handlers by key. A handler is held by pointer, so
a call of `handle` on it changes the entry of the map. -/
abbrev BackOffHandlerMap := List (String × ResourceAwareBackOffHandler)

/-- Source: `PluginManager.getBackOffHandler`: the handler registered for `key`, after
registering a fresh one when there is none; `createdAt` is the reading of `time.Now()`. -/
def getBackOffHandler (backOffHandlers : BackOffHandlerMap) (key : String) (createdAt : Time) :
    ResourceAwareBackOffHandler × BackOffHandlerMap :=
  match GoMap.load backOffHandlers key with
  | some handler => (handler, backOffHandlers)
  | none =>
    (freshBackOffHandler createdAt,
      GoMap.store backOffHandlers key (freshBackOffHandler createdAt))

/-- The value of `podRequestedResources` after the loop of `LaunchResource` over the
containers. The variable is declared without a value, a nil map. The only statement of the
loop, `podRequestedResources[k].Add(v)`, calls a pointer method on a map element, which Go
does not accept; so when some container declares a limit the value after the loop is left
open as `loopResult`, and when none does the statement is never reached and the map is
still nil. -/
def podRequestedResourcesOf (loopResult : ResourceList) (containers : List ResourceList) :
    ResourceList :=
  if containers.all (fun limits => limits.isEmpty) then [] else loopResult

/-- The result of `LaunchResource`. -/
structure LaunchResult (W : Type) where
  outcome : CallOutcome
  backOffHandlers : BackOffHandlerMap
  world : W

/-- The part of `LaunchResource` that maps a non-nil error of the backoff handler to what
is returned. -/
def launchFailure (unwrap : Bool) (err : StdError) : CallOutcome :=
  if !decide (err.reason unwrap = StatusReason.AlreadyExists) then
    if IsBackoffError err then
      CallOutcome.returned
        (DoTransition
          (PhaseInfoWaitingForResources "failed to launch job, resource quota exceeded."))
        none
    else if decide (err.reason unwrap = StatusReason.Forbidden) then
      CallOutcome.returned (DoTransition (PhaseInfoRetryableFailure "RuntimeFailure" err.Error))
        none
    else if decide (err.reason unwrap = StatusReason.BadRequest) ||
        decide (err.reason unwrap = StatusReason.Invalid) then
      CallOutcome.returned UnknownTransition
        (some (TaskError.wrapf (err.reason unwrap).text (TaskError.std err)
          "failed to create resource"))
    else if decide (err.reason unwrap = StatusReason.RequestEntityTooLarge) then
      CallOutcome.returned (DoTransition (PhaseInfoFailure "EntityTooLarge" err.Error)) none
    else
      CallOutcome.returned UnknownTransition
        (some (TaskError.wrapf (err.reason unwrap).text (TaskError.std err)
          "failed to create resource"))
  else
    CallOutcome.returned (DoTransition (PhaseInfoQueued "task submitted to K8s")) none

/-- Source: `PluginManager.LaunchResource`. `built` is what `plugin.BuildResource` returns,
`create` the call `kubeClient.GetClient().Create(ctx, o)`; `createdAt`, `now` and
`resetNow` are the readings of `time.Now()` in `getBackOffHandler`, on entry of `handle` and
in the reset. -/
def LaunchResource {W : Type} (unwrap : Bool) (mustParse : String → Option Quantity)
    (loopResult : ResourceList) (cfg : K8sPluginConfig) (taskCtx : TaskExecutionMetadata)
    (built : Except TaskError Resource) (create : Resource → W → Option K8sError × W)
    (createdAt now resetNow : Time) (backOffHandlers : BackOffHandlerMap) (w : W) :
    LaunchResult W :=
  match built with
  | Except.error err =>
    { outcome := CallOutcome.returned UnknownTransition (some err),
      backOffHandlers := backOffHandlers, world := w }
  | Except.ok o0 =>
    let o := AddObjectMetadata taskCtx o0 cfg
    let key := o.GroupVersionKind ++ "," ++ o.Namespace
    match o.podLimits with
    | none =>
      { outcome := CallOutcome.panicked RuntimePanic.nilPointerDereference,
        backOffHandlers := backOffHandlers, world := w }
    | some containers =>
      let podRequestedResources := podRequestedResourcesOf loopResult containers
      let got := getBackOffHandler backOffHandlers key createdAt
      let res := got.1.handle mustParse now resetNow (create o) w podRequestedResources
      { outcome :=
          match res.outcome with
          | Outcome.panicked p => CallOutcome.panicked (RuntimePanic.parser p)
          | Outcome.returned (some err) => launchFailure unwrap err
          | Outcome.returned none =>
            CallOutcome.returned (DoTransition (PhaseInfoQueued "task submitted to K8s")) none,
        backOffHandlers := GoMap.store got.2 key res.handler,
        world := res.world }

/-- The output reader that `CheckResourcePhase` hands to the output writer. -/
inductive OutputReader
  | remoteFile
  | fromPlugin (id : String)
  deriving DecidableEq, Repr

/-- The result of `CheckResourcePhase`; `resourceDeleted` counts the increments of the
metric `ResourceDeleted`. -/
structure CheckResult (W : Type) where
  outcome : CallOutcome
  resourceDeleted : Nat
  world : W

/-- Source: `PluginManager.CheckResourcePhase`. `identity` is what
`plugin.BuildIdentityResource` returns; `clientGet` is `kubeClient.GetClient().Get`, which
yields the fetched object or an error; `GetTaskPhase` is the phase function of the plugin,
which returns a phase or an error and may leave an output reader in the plugin context;
`putOutputs` is `tCtx.OutputWriter().Put`. -/
def CheckResourcePhase {W : Type} (cfg : K8sPluginConfig) (taskCtx : TaskExecutionMetadata)
    (identity : Except TaskError Resource)
    (clientGet : String → String → W → Except K8sError Resource × W)
    (GetTaskPhase : Resource → W → (Except TaskError PhaseInfo × Option OutputReader) × W)
    (putOutputs : OutputReader → W → Option TaskError × W) (w : W) : CheckResult W :=
  match identity with
  | Except.error err =>
    { outcome := CallOutcome.returned
        (DoTransition (PhaseInfoFailure "BadTaskDefinition"
          ("Failed to build resource, caused by: " ++ err.Error))) none,
      resourceDeleted := 0, world := w }
  | Except.ok o0 =>
    let o := AddObjectMetadata taskCtx o0 cfg
    match clientGet o.Namespace o.Name w with
    | (Except.error err, w1) =>
      if IsK8sObjectNotExists err then
        { outcome := CallOutcome.returned
            (DoTransition (PhaseInfoRetryableFailure "Tachycardia"
              ("resource not found, name [" ++ NamespacedName o.Namespace o.Name ++
                "]. reason: " ++ err.message))) none,
          resourceDeleted := 0, world := w1 }
      else
        { outcome := CallOutcome.returned UnknownTransition (some (TaskError.k8s err)),
          resourceDeleted := 0, world := w1 }
    | (Except.ok fetched, w1) =>
      let deleted := if fetched.DeletionTimestamp.isSome then 1 else 0
      match GetTaskPhase fetched w1 with
      | ((Except.error err, _), w2) =>
        { outcome := CallOutcome.returned UnknownTransition (some err),
          resourceDeleted := deleted, world := w2 }
      | ((Except.ok p, ow), w2) =>
        if p.phase = Phase.Success then
          match putOutputs (ow.getD OutputReader.remoteFile) w2 with
          | (some err, w3) =>
            { outcome := CallOutcome.returned UnknownTransition (some err),
              resourceDeleted := deleted, world := w3 }
          | (none, w3) =>
            { outcome := CallOutcome.returned (DoTransition p) none,
              resourceDeleted := deleted, world := w3 }
        else if !p.phase.IsTerminal && fetched.DeletionTimestamp.isSome then
          { outcome := CallOutcome.returned
              (DoTransition (PhaseInfoRetryableFailure "tachycardia"
                ("object [" ++ NamespacedName o.Namespace o.Name ++
                  "] terminated in the background, manually"))) none,
            resourceDeleted := deleted, world := w2 }
        else
          { outcome := CallOutcome.returned (DoTransition p) none,
            resourceDeleted := deleted, world := w2 }

/-- What `tCtx.PluginStateReader().Get(&ps)` yields: the version, the error if any, and
the state `ps` after the call. -/
structure PluginStateRead where
  version : Nat
  err : Option TaskError
  state : PluginState
  deriving DecidableEq, Repr

/-- Source: `PluginManager.Handle`. `readState` is `tCtx.PluginStateReader().Get`, `putState`
is `tCtx.PluginStateWriter().Put`, `launch` and `check` are the calls of `LaunchResource`
and `CheckResourcePhase`. -/
def Handle {W : Type} (readState : W → PluginStateRead × W)
    (launch check : W → CallOutcome × W)
    (putState : Nat → PluginState → W → Option TaskError × W) (w : W) : CallOutcome × W :=
  match readState w with
  | (rd, w1) =>
    match rd.err with
    | some err =>
      if rd.version ≠ pluginStateVersion then
        (CallOutcome.returned
          (DoTransition (PhaseInfoRetryableFailure "CorruptedPluginState"
            ("plugin state version mismatch expected [" ++ Nat.repr pluginStateVersion ++
              "] got [" ++ Nat.repr rd.version ++ "]"))) none, w1)
      else
        (CallOutcome.returned UnknownTransition
          (some (TaskError.wrapf "CorruptedPluginState" err
            "Failed to read unmarshal custom state")), w1)
    | none =>
      if rd.state.Phase = PluginPhaseNotStarted then
        match launch w1 with
        | (CallOutcome.panicked p, w2) => (CallOutcome.panicked p, w2)
        | (CallOutcome.returned t err, w2) =>
          if err = none ∧ t.info.phase = Phase.Queued then
            match putState pluginStateVersion { Phase := PluginPhaseStarted } w2 with
            | (some perr, w3) => (CallOutcome.returned UnknownTransition (some perr), w3)
            | (none, w3) => (CallOutcome.returned t err, w3)
          else (CallOutcome.returned t err, w2)
      else check w1

/-- What a call of `Handle` does to its collaborators, in order. -/
inductive Event
  | readState
  | launch
  | check
  | putState (version : Nat) (state : PluginState)
  deriving DecidableEq, Repr

/-- An operation that also records the event `e` in a log kept beside the world. -/
def logged {W R : Type} (e : Event) (operation : W → R × W) : W × List Event → R × (W × List Event) :=
  fun s => ((operation s.1).1, ((operation s.1).2, s.2 ++ [e]))

/-- The call of `Handle` with every collaborator logged, started on an empty log. -/
def HandleLogged {W : Type} (readState : W → PluginStateRead × W)
    (launch check : W → CallOutcome × W)
    (putState : Nat → PluginState → W → Option TaskError × W) (w : W) :
    CallOutcome × (W × List Event) :=
  Handle (logged Event.readState readState) (logged Event.launch launch)
    (logged Event.check check)
    (fun version state => logged (Event.putState version state) (putState version state))
    (w, [])

/-! More concrete inputs used to evaluate the definitions. -/

/-- A configuration with finalizer injection and no defaults. -/
def injectingConfig : K8sPluginConfig :=
  { DefaultAnnotations := [], DefaultLabels := [], InjectFinalizer := true }

/-- The metadata of a task execution in namespace `ns` with generated name `task-0`. -/
def sampleMetadata : TaskExecutionMetadata :=
  { Namespace := "ns", Annotations := [], Labels := [],
    OwnerReference := { Kind := "flyteworkflow", Name := "wf", Controller := true },
    GeneratedName := "task-0" }

/-- A pod as a plugin builds it: one container that declares no limit, finalizer list
`finalizers`. -/
def samplePod (finalizers : List String) : Resource :=
  { GroupVersionKind := "/v1, Kind=Pod", Namespace := "", Name := "", Annotations := [],
    Labels := [], OwnerReferences := [], Finalizers := finalizers, DeletionTimestamp := none,
    ResourceVersion := "", podLimits := some [[]] }

/-- A create call that fails with `err` and counts the calls it receives. -/
def createFails (err : K8sError) : Resource → Nat → Option K8sError × Nat :=
  fun _ n => (some err, n + 1)

/-- A rejection of a request that is too large. -/
def tooLargeRejection : K8sError :=
  { reason := StatusReason.RequestEntityTooLarge, message := "request entity too large" }

/-- A rejection that is forbidden for another reason than quota. -/
def forbiddenRejection : K8sError :=
  { reason := StatusReason.Forbidden, message := "pods is forbidden: no access" }

/-- A state reader that reports `rd`. -/
def readsState (rd : PluginStateRead) : Unit → PluginStateRead × Unit := fun w => (rd, w)

/-- A launch or check that ends with `out`. -/
def endsWith (out : CallOutcome) : Unit → CallOutcome × Unit := fun w => (out, w)

/-- A state writer that succeeds. -/
def putSucceeds : Nat → PluginState → Unit → Option TaskError × Unit := fun _ _ w => (none, w)

/-- The outcome of a launch that queued the task. -/
def queuedOutcome : CallOutcome :=
  CallOutcome.returned (DoTransition (PhaseInfoQueued "task submitted to K8s")) none

/-- The outcome of a check that found the task running. -/
def runningOutcome : CallOutcome :=
  CallOutcome.returned (DoTransition { phase := Phase.Running, code := "", reason := "" }) none

end K8s

namespace workflowstore

/-- Modelled from the spec: the terminated filter built by `fastcheck.NewLRUCacheFilter`
(the package is not part of these sources) is a bounded set of keys of fixed capacity with
least-recently-used eviction: a key that is added becomes the most recent one, and the
oldest keys beyond the capacity are dropped. -/
def lruFilter (capacity : Nat) : Filter (List String) :=
  { Contains := fun f key => f.contains key,
    Add := fun f key => (key :: f.filter (fun k => !decide (k = key))).take capacity }

/-- A terminated workflow `ns/wf` with the version token `token`. -/
def terminatedWorkflow (token : String) : FlyteWorkflow :=
  { Namespace := "ns", Name := "wf", ResourceVersion := token, ManagedFields := [],
    Status := { terminated := true } }

/-- A running workflow `ns/wf` with token `token` and two field-management entries. -/
def managedWorkflow (token : String) : FlyteWorkflow :=
  { Namespace := "ns", Name := "wf", ResourceVersion := token,
    ManagedFields :=
      [{ Manager := "propeller", Operation := "Update", APIVersion := "v1alpha1",
         FieldsType := "FieldsV1" },
       { Manager := "kubectl", Operation := "Apply", APIVersion := "v1alpha1",
         FieldsType := "FieldsV1" }],
    Status := { terminated := false } }

/-- An underlying store that answers every call with the workflow it was given (for `Get`,
with `stored`) and keeps the last workflow written in its world. -/
def recordingUnderlying (stored : FlyteWorkflow) : Underlying (Option FlyteWorkflow) :=
  { Get := fun w _ _ => (Except.ok (some stored), w),
    UpdateStatus := fun _ wf _ => (Except.ok (some wf), some wf),
    Update := fun _ wf _ => (Except.ok (some wf), some wf) }

end workflowstore

namespace K8s

/-- The pod as the cluster returns it, with the deletion timestamp `deletion`. -/
def fetchedPod (deletion : Option Time) : Resource :=
  { GroupVersionKind := "/v1, Kind=Pod", Namespace := "ns", Name := "task-0", Annotations := [],
    Labels := [], OwnerReferences := [], Finalizers := [finalizer],
    DeletionTimestamp := deletion, ResourceVersion := "7", podLimits := some [[]] }

/-- A fetch that yields `fetched` and counts the calls made on the world. -/
def getYields (fetched : Resource) : String → String → Nat → Except K8sError Resource × Nat :=
  fun _ _ n => (Except.ok fetched, n + 1)

/-- A fetch that fails with `err` and counts the calls made on the world. -/
def getFails (err : K8sError) : String → String → Nat → Except K8sError Resource × Nat :=
  fun _ _ n => (Except.error err, n + 1)

/-- A phase function that reports `p`, leaves no output reader and counts the calls made
on the world. -/
def phaseIs (p : PhaseInfo) :
    Resource → Nat → (Except TaskError PhaseInfo × Option OutputReader) × Nat :=
  fun _ n => ((Except.ok p, none), n + 1)

/-- An output writer that succeeds and counts the calls made on the world. -/
def putOutputsSucceeds : OutputReader → Nat → Option TaskError × Nat :=
  fun _ n => (none, n + 1)

/-- The error of a fetch of an object that does not exist. -/
def notFoundError : K8sError :=
  { reason := StatusReason.NotFound, message := "pods task-0 not found" }

/-- The phase information of a running task. -/
def runningInfo : PhaseInfo := { phase := Phase.Running, code := "", reason := "" }

end K8s

namespace K8s

/-! Finalizers and the watch binding. -/

/-- The result of `ClearFinalizers`: the error returned, the object after the call and the
world. -/
structure ClearResult (W : Type) where
  err : Option K8sError
  resource : Resource
  world : W

/-- Source: `PluginManager.ClearFinalizers`; `clientUpdate` is
`kubeClient.GetClient().Update`. -/
def ClearFinalizers {W : Type} (clientUpdate : Resource → W → Option K8sError × W)
    (o : Resource) (w : W) : ClearResult W :=
  if o.Finalizers.length > 0 then
    match clientUpdate { o with Finalizers := [] } w with
    | (some err, w1) =>
      if !IsK8sObjectNotExists err then
        { err := some err, resource := { o with Finalizers := [] }, world := w1 }
      else { err := none, resource := { o with Finalizers := [] }, world := w1 }
    | (none, w1) => { err := none, resource := { o with Finalizers := [] }, world := w1 }
  else { err := none, resource := o, world := w }

/-- Source: `PluginManager.Finalize`; `identity` is what `plugin.BuildIdentityResource`
returns, `clientGet` and `clientUpdate` are the calls of the cluster client. -/
def Finalize {W : Type} (cfg : K8sPluginConfig) (taskCtx : TaskExecutionMetadata)
    (identity : Except TaskError Resource)
    (clientGet : String → String → W → Except K8sError Resource × W)
    (clientUpdate : Resource → W → Option K8sError × W) (w : W) : Option K8sError × W :=
  if cfg.InjectFinalizer then
    match identity with
    | Except.error _ => (none, w)
    | Except.ok o0 =>
      match clientGet (AddObjectMetadata taskCtx o0 cfg).Namespace
          (AddObjectMetadata taskCtx o0 cfg).Name w with
      | (Except.error err, w1) =>
        if IsK8sObjectNotExists err then (none, w1) else (some err, w1)
      | (Except.ok fetched, w1) =>
        ((ClearFinalizers clientUpdate fetched w1).err,
          (ClearFinalizers clientUpdate fetched w1).world)
  else (none, w)

/-- A cluster call instrumented with a counter of the calls made. -/
def countedCall {W A R : Type} (call : A → W → R × W) : A → W × Nat → R × (W × Nat) :=
  fun a s => ((call a s.1).1, ((call a s.1).2, s.2 + 1))

/-- The interface `metav1.Object`, reduced to what the watch binding reads. -/
structure ObjectMeta where
  Namespace : String
  Name : String
  ResourceVersion : String
  OwnerReferences : List OwnerReference
  deriving DecidableEq, Repr

/-- The function `metav1.GetControllerOf`: the first owner reference marked as controller. -/
def GetControllerOf (o : ObjectMeta) : Option OwnerReference :=
  o.OwnerReferences.find? (fun ref => ref.Controller)

/-- Source: `workflowParentPredicate` in `NewPluginManager`. -/
def workflowParentPredicate (ownerKind : String) (o : ObjectMeta) : Bool :=
  match GetControllerOf o with
  | some ownerReference => decide (ownerReference.Kind = ownerKind)
  | none => false

/-- The type `event.UpdateEvent`; either object may be nil. -/
structure UpdateEvent where
  MetaOld : Option ObjectMeta
  MetaNew : Option ObjectMeta
  deriving DecidableEq, Repr

/-- The events a watch delivers. -/
inductive WatchEvent
  | create (o : ObjectMeta)
  | update (evt : UpdateEvent)
  | delete (o : ObjectMeta)
  | generic (o : ObjectMeta)
  deriving DecidableEq, Repr

/-- What the handlers of the watch binding change: the names handed to `enqueueOwner`, in
order, and the three counters. -/
structure WatchState where
  enqueued : List String
  updateCount : Nat
  droppedUpdateCount : Nat
  genericCount : Nat
  deriving DecidableEq, Repr

/-- Source: the `predicate.Funcs` of `NewPluginManager`. For an update event without new
object `metav1.GetControllerOf` dereferences nil: the predicate has no value. -/
def watchPredicate (ownerKind : String) : WatchEvent → Option Bool
  | WatchEvent.create _ => some false
  | WatchEvent.update evt =>
    match evt.MetaNew with
    | some o => some (workflowParentPredicate ownerKind o)
    | none => none
  | WatchEvent.delete _ => some false
  | WatchEvent.generic o => some (workflowParentPredicate ownerKind o)

/-- Source: the `handler.Funcs` of `NewPluginManager`. The error that `enqueueOwner` may
return is only logged. -/
def watchHandler (s : WatchState) : WatchEvent → WatchState
  | WatchEvent.create _ => s
  | WatchEvent.update evt =>
    match evt.MetaNew with
    | none => s
    | some new =>
      match evt.MetaOld with
      | none =>
        { s with enqueued := s.enqueued ++ [NamespacedName new.Namespace new.Name],
                 updateCount := s.updateCount + 1 }
      | some old =>
        if old.ResourceVersion ≠ new.ResourceVersion then
          { s with enqueued := s.enqueued ++ [NamespacedName new.Namespace new.Name],
                   updateCount := s.updateCount + 1 }
        else { s with droppedUpdateCount := s.droppedUpdateCount + 1 }
  | WatchEvent.delete _ => s
  | WatchEvent.generic _ => { s with genericCount := s.genericCount + 1 }

/-- The delivery of one event by the `source.Kind` of controller-runtime, to which
`NewPluginManager` passes its handlers and predicates: the handler runs when the predicate
accepts the event; `none` stands for the panic of a predicate. -/
def watchDeliver (ownerKind : String) (s : WatchState) (e : WatchEvent) : Option WatchState :=
  match watchPredicate ownerKind e with
  | none => none
  | some true => some (watchHandler s e)
  | some false => some s

/-! Concrete inputs for the metadata, the finalizers and the watch. -/

/-- A configuration with the default annotation and the default label `team = platform`. -/
def defaultsConfig : K8sPluginConfig :=
  { DefaultAnnotations := [("team", "platform")], DefaultLabels := [("team", "platform")],
    InjectFinalizer := false }

/-- The metadata of a task execution that supplies the annotation and the label
`team = data`. -/
def teamMetadata : TaskExecutionMetadata :=
  { Namespace := "ns", Annotations := [("team", "data")], Labels := [("team", "data")],
    OwnerReference := { Kind := "flyteworkflow", Name := "wf", Controller := true },
    GeneratedName := "task-0" }

/-- An update call that succeeds. -/
def updateSucceeds : Resource → Unit → Option K8sError × Unit := fun _ w => (none, w)

/-- The empty state of the watch handlers. -/
def emptyWatch : WatchState :=
  { enqueued := [], updateCount := 0, droppedUpdateCount := 0, genericCount := 0 }

/-- A pod ns/task-0 owned by a workflow, with version token `token`. -/
def ownedPod (token : String) : ObjectMeta :=
  { Namespace := "ns", Name := "task-0", ResourceVersion := token,
    OwnerReferences := [{ Kind := "flyteworkflow", Name := "wf", Controller := true }] }

end K8s

namespace K8s

/-- The value that the conversion of a `float64` beyond the `int64` range yields on amd64,
the smallest `int64`. -/
def amd64Overflow : Int := -(2 ^ 63)

/-- The blocker after a call of `SimpleBackOffBlocker.handle` at time `now` whose operation
fails, the clock being read again at the same instant. -/
def failStep (ovf : Int) (b : SimpleBackOffBlocker) (now : Time) : SimpleBackOffBlocker :=
  (SimpleBackOffBlocker.handle b ovf now now (failsWith forbiddenRejection) ()).blocker

end K8s

/-! ## Association lists -/

namespace GoMap

theorem load_store_self {V : Type} (m : List (String × V)) (key : String) (val : V) :
    load (store m key val) key = some val := by
  induction m with
  | nil => simp [store, load]
  | cons e m ih =>
    obtain ⟨k, v⟩ := e
    by_cases hk : k = key
    · simp [store, load, hk]
    · simp [store, load, hk, ih]

theorem load_store_ne {V : Type} (m : List (String × V)) (key other : String) (val : V)
    (hne : other ≠ key) : load (store m key val) other = load m other := by
  induction m with
  | nil =>
    have hne2 : ¬ key = other := fun h => hne h.symm
    simp [store, load, hne2]
  | cons e m ih =>
    obtain ⟨k, v⟩ := e
    by_cases hk : k = key
    · have hko : ¬ k = other := fun h => hne (h.symm.trans hk)
      have hne2 : ¬ key = other := fun h => hne h.symm
      simp [store, load, hk, hne2]
    · by_cases hko : k = other
      · subst hko
        simp [store, load, hne]
      · simp [store, load, hk, hko, ih]

theorem load_delete_self {V : Type} (m : List (String × V)) (key : String) :
    load (delete m key) key = none := by
  induction m with
  | nil => simp [delete, load]
  | cons e m ih =>
    obtain ⟨k, v⟩ := e
    by_cases hk : k = key
    · simpa [delete, hk] using ih
    · simpa [delete, load, hk] using ih

theorem load_delete_ne {V : Type} (m : List (String × V)) (key other : String)
    (hne : other ≠ key) : load (delete m key) other = load m other := by
  induction m with
  | nil => simp [delete, load]
  | cons e m ih =>
    obtain ⟨k, v⟩ := e
    by_cases hk : k = key
    · subst hk
      have hko : ¬ k = other := fun h => hne h.symm
      simpa [delete, load, hko] using ih
    · by_cases hko : k = other
      · subst hko
        simp [delete, load, hne]
      · simpa [delete, load, hk, hko] using ih

theorem isSome_load_iff_mem_keys {V : Type} (m : List (String × V)) (key : String) :
    (load m key).isSome = true ↔ key ∈ keys m := by
  induction m with
  | nil => simp [load, keys]
  | cons e m ih =>
    obtain ⟨k, v⟩ := e
    by_cases hk : k = key
    · simp [load, keys, hk]
    · have hk2 : ¬ key = k := fun h => hk h.symm
      simpa [load, keys, hk, hk2] using ih

end GoMap

namespace K8s

theorem Quantity.Cmp_eq_neg_one_iff (q y : Quantity) : Quantity.Cmp q y = -1 ↔ q < y := by
  unfold Quantity.Cmp
  by_cases h1 : q < y
  · simp [h1]
  · by_cases h2 : y < q
    · simp [h1, h2]
    · simp [h1, h2]

/-- Eligibility, as the code computes it: every requested quantity is strictly below the
value the ceilings map yields under a plain index (zero for a missing entry). -/
theorem ResourceCeilings.isEligible_iff (r : ResourceCeilings) (req : ResourceList) :
    r.isEligible req = true ↔ ∀ e ∈ req, e.2 < GoMap.index 0 r.resourceCeilings e.1 := by
  unfold ResourceCeilings.isEligible
  have key : ∀ (l : ResourceList) (b : Bool),
      l.foldl (fun eligibility e =>
        eligibility && decide (Quantity.Cmp e.2 (GoMap.index 0 r.resourceCeilings e.1) = -1)) b
        = true ↔ (b = true ∧ ∀ e ∈ l, e.2 < GoMap.index 0 r.resourceCeilings e.1) := by
    intro l
    induction l with
    | nil => intro b; simp
    | cons x xs ih =>
      intro b
      rw [List.foldl_cons, ih]
      simp [Quantity.Cmp_eq_neg_one_iff, and_assoc]
  simpa using key req true

end K8s

namespace K8s

/-! ## Ceilings: `update`, `updateAll`, `resetAll` -/

theorem ResourceCeilings.load_update_self (r : ResourceCeilings) (d : ResourceName)
    (q : Quantity) :
    GoMap.load (r.update d q).resourceCeilings d =
      some (match GoMap.load r.resourceCeilings d with
            | none => q
            | some c0 => if q < c0 then q else c0) := by
  unfold ResourceCeilings.update
  cases hl : GoMap.load r.resourceCeilings d with
  | none => simp [GoMap.load_store_self]
  | some c0 =>
    by_cases hq : q < c0
    · simp [Quantity.Cmp_eq_neg_one_iff, hq, GoMap.load_store_self]
    · simp [Quantity.Cmp_eq_neg_one_iff, hq, hl]

theorem ResourceCeilings.load_update_ne (r : ResourceCeilings) (d other : ResourceName)
    (q : Quantity) (hne : other ≠ d) :
    GoMap.load (r.update d q).resourceCeilings other = GoMap.load r.resourceCeilings other := by
  unfold ResourceCeilings.update
  cases hl : GoMap.load r.resourceCeilings d with
  | none => simp [GoMap.load_store_ne _ _ _ _ hne]
  | some c0 =>
    by_cases hq : q < c0
    · simp [Quantity.Cmp_eq_neg_one_iff, hq, GoMap.load_store_ne _ _ _ _ hne]
    · simp [Quantity.Cmp_eq_neg_one_iff, hq]

/-- After `update d q` the ceiling of `d` is recorded and at most `q`. -/
theorem ResourceCeilings.update_le (r : ResourceCeilings) (d : ResourceName) (q : Quantity) :
    ∃ c, GoMap.load (r.update d q).resourceCeilings d = some c ∧ c ≤ q := by
  rw [ResourceCeilings.load_update_self]
  refine ⟨_, rfl, ?_⟩
  cases GoMap.load r.resourceCeilings d with
  | none => exact le_refl q
  | some c0 =>
    by_cases hq : q < c0
    · simp [hq]
    · simpa [hq] using not_lt.mp hq

/-- A recorded ceiling stays recorded under `update` and does not grow. -/
theorem ResourceCeilings.update_mono (r : ResourceCeilings) (d other : ResourceName)
    (q c0 : Quantity) (h0 : GoMap.load r.resourceCeilings other = some c0) :
    ∃ c, GoMap.load (r.update d q).resourceCeilings other = some c ∧ c ≤ c0 := by
  by_cases hne : other = d
  · subst hne
    rw [ResourceCeilings.load_update_self, h0]
    refine ⟨_, rfl, ?_⟩
    by_cases hq : q < c0
    · simpa [hq] using le_of_lt hq
    · simp [hq]
  · rw [ResourceCeilings.load_update_ne r d other q hne]
    exact ⟨c0, h0, le_refl c0⟩

theorem ResourceCeilings.updateAll_cons (r : ResourceCeilings) (e : ResourceName × Quantity)
    (rest : ResourceList) :
    r.updateAll (e :: rest) = (r.update e.1 e.2).updateAll rest := rfl

theorem ResourceCeilings.updateAll_untouched (resources : ResourceList) :
    ∀ (r : ResourceCeilings) (other : ResourceName), (∀ e ∈ resources, e.1 ≠ other) →
      GoMap.load (r.updateAll resources).resourceCeilings other
        = GoMap.load r.resourceCeilings other := by
  induction resources with
  | nil => intro r other _; rfl
  | cons x xs ih =>
    intro r other hno
    rw [ResourceCeilings.updateAll_cons, ih (r.update x.1 x.2) other
      (fun e he => hno e (List.mem_cons_of_mem _ he))]
    exact ResourceCeilings.load_update_ne r x.1 other x.2
      (fun h => hno x (List.mem_cons_self _ _) h.symm)

theorem ResourceCeilings.updateAll_mono (resources : ResourceList) :
    ∀ (r : ResourceCeilings) (other : ResourceName) (c0 : Quantity),
      GoMap.load r.resourceCeilings other = some c0 →
      ∃ c, GoMap.load (r.updateAll resources).resourceCeilings other = some c ∧ c ≤ c0 := by
  induction resources with
  | nil => intro r other c0 h0; exact ⟨c0, h0, le_refl c0⟩
  | cons x xs ih =>
    intro r other c0 h0
    obtain ⟨c1, h1, hle1⟩ := ResourceCeilings.update_mono r x.1 other x.2 c0 h0
    obtain ⟨c, hc, hle⟩ := ih (r.update x.1 x.2) other c1 h1
    exact ⟨c, by rw [ResourceCeilings.updateAll_cons]; exact hc, le_trans hle hle1⟩

theorem ResourceCeilings.updateAll_le (resources : ResourceList) :
    ∀ (r : ResourceCeilings), ∀ e ∈ resources,
      ∃ c, GoMap.load (r.updateAll resources).resourceCeilings e.1 = some c ∧ c ≤ e.2 := by
  induction resources with
  | nil => intro r e he; simp at he
  | cons x xs ih =>
    intro r e he
    rw [ResourceCeilings.updateAll_cons]
    rcases List.mem_cons.mp he with hx | hxs
    · subst hx
      obtain ⟨c1, h1, hle1⟩ := ResourceCeilings.update_le r e.1 e.2
      obtain ⟨c, hc, hle⟩ := ResourceCeilings.updateAll_mono xs (r.update e.1 e.2) e.1 c1 h1
      exact ⟨c, hc, le_trans hle hle1⟩
    · exact ih (r.update x.1 x.2) e hxs

theorem ResourceCeilings.load_reset (r : ResourceCeilings) (d other : ResourceName) :
    GoMap.load (r.reset d).resourceCeilings other =
      if other = d then some ResourceCeilings.inf else GoMap.load r.resourceCeilings other := by
  unfold ResourceCeilings.reset
  by_cases h : other = d
  · subst h; simp [GoMap.load_store_self]
  · simp [h, GoMap.load_store_ne _ _ _ _ h]

theorem ResourceCeilings.load_foldl_reset (ks : List ResourceName) :
    ∀ (r : ResourceCeilings) (other : ResourceName),
      GoMap.load (ks.foldl (fun acc resource => acc.reset resource) r).resourceCeilings other =
        if other ∈ ks then some ResourceCeilings.inf
        else GoMap.load r.resourceCeilings other := by
  induction ks with
  | nil => intro r other; simp
  | cons k ks ih =>
    intro r other
    rw [List.foldl_cons, ih, ResourceCeilings.load_reset]
    by_cases h1 : other ∈ ks
    · simp [h1]
    · by_cases h2 : other = k
      · simp [h2]
      · simp [h1, h2]

/-- After `resetAll` exactly the dimensions recorded before are recorded, each with the
sentinel `inf`. -/
theorem ResourceCeilings.load_resetAll (r : ResourceCeilings) (d : ResourceName) :
    GoMap.load r.resetAll.resourceCeilings d =
      (GoMap.load r.resourceCeilings d).map (fun _ => ResourceCeilings.inf) := by
  unfold ResourceCeilings.resetAll
  rw [ResourceCeilings.load_foldl_reset]
  have hk := GoMap.isSome_load_iff_mem_keys r.resourceCeilings d
  cases hl : GoMap.load r.resourceCeilings d with
  | none =>
    have : d ∉ GoMap.keys r.resourceCeilings := by
      intro hmem
      have := hk.mpr hmem
      simp [hl] at this
    simp [this]
  | some c =>
    have : d ∈ GoMap.keys r.resourceCeilings := hk.mp (by simp [hl])
    simp [this]

end K8s

namespace K8s

/-! ## The combined handler -/

/-- C1 (the code at the failing inputs). A handler created at time 0 with no recorded
ceiling, called at the later time 1 with the request cpu=1 and a create operation that
would succeed, does not invoke the operation (the call counter stays 0) and returns the
BackOff error of a refused call. The same happens with a recorded ceiling cpu=1 and the
request cpu=2 once the window, which ended at time 0, has elapsed. -/
theorem C1_elapsed_window_refused :
    ((freshBackOffHandler 0).handle parseSmall 1 1 (counted succeeds) ((), 0)
        [("cpu", 1)]).world = ((), 0) ∧
    ((freshBackOffHandler 0).handle parseSmall 1 1 (counted succeeds) ((), 0)
        [("cpu", 1)]).outcome
      = Outcome.returned (some (StdError.errorf "BackOff" backOffActiveMessage [1, 0])) ∧
    ((elapsedHandler 1).handle parseSmall 1 1 (counted succeeds) ((), 0)
        [("cpu", 2)]).world = ((), 0) ∧
    ((elapsedHandler 1).handle parseSmall 1 1 (counted succeeds) ((), 0)
        [("cpu", 2)]).outcome
      = Outcome.returned (some (StdError.errorf "BackOff" backOffActiveMessage [1, 0])) :=
  ⟨by decide, rfl, by decide, rfl⟩

/-- C2 (the code at the failing input). With the window open until time 10, the ceiling
cpu=1 and the request cpu=2 (not eligible), a call at time 5 does invoke the operation
(the call counter becomes 1); as the operation succeeds the call returns nil and resets the
handler: exponent 1 becomes 0, nextEligibleTime 10 becomes the time of the reset and the
ceiling 1 becomes the sentinel. -/
theorem C2_open_window_attempted :
    ((windowedHandler 1).handle parseSmall 5 6 (counted succeeds) ((), 0)
        [("cpu", 2)]).world = ((), 1) ∧
    ((windowedHandler 1).handle parseSmall 5 6 (counted succeeds) ((), 0)
        [("cpu", 2)]).outcome = Outcome.returned none ∧
    ((windowedHandler 1).handle parseSmall 5 6 (counted succeeds) ((), 0)
        [("cpu", 2)]).handler
      = { backOffExponent := 0, nextEligibleTime := 6,
          resourceCeilings := [("cpu", ResourceCeilings.inf)] } := by
  decide

/-- C3. Whenever `isEligible` holds for the request, `handle` invokes the operation exactly
once, whatever the time and the window: run on the operation instrumented with a call
counter, the counter ends one higher and the world is the one the operation produced. -/
theorem C3_eligible_invokes_once {W : Type} (h : ResourceAwareBackOffHandler)
    (mustParse : String → Option Quantity) (now resetNow : Time)
    (operation : W → Option K8sError × W) (w : W) (n : Nat)
    (requestedResourceList : ResourceList)
    (hel : h.toResourceCeilings.isEligible requestedResourceList = true) :
    (h.handle mustParse now resetNow (counted operation) (w, n) requestedResourceList).world
      = ((operation w).2, n + 1) := by
  unfold ResourceAwareBackOffHandler.handle
  simp only [hel, Bool.or_true, if_true]
  cases hop : (operation w).1 with
  | none => simp [counted, hop]
  | some err =>
    simp only [counted, hop]
    by_cases hq : IsResourceQuotaExceeded err = true
    · simp only [hq, if_true]
      cases GetResourceAndQuantityRequested mustParse err <;> rfl
    · simp [hq]

/-- C3 at a concrete input: window open until 10, ceiling cpu=4, request cpu=2 at time 5. -/
theorem C3_eligible_invokes_once_witness :
    (windowedHandler 4).toResourceCeilings.isEligible [("cpu", 2)] = true ∧
    decide ((5 : Time) < (windowedHandler 4).nextEligibleTime) = true ∧
    ((windowedHandler 4).handle parseSmall 5 6 (counted succeeds) ((), 0) [("cpu", 2)]).world
      = ((succeeds ()).2, 0 + 1) :=
  ⟨by decide, by decide,
    C3_eligible_invokes_once (windowedHandler 4) parseSmall 5 6 succeeds () 0 [("cpu", 2)]
      (by decide)⟩

/-- C4 (the code at the failing input). With no ceiling recorded for cpu, a request of the
positive quantity cpu=1 is not eligible: the missing entry is read as the zero quantity. A
request equal to a recorded ceiling is not eligible either, and one below it is. -/
theorem C4_missing_ceiling_not_eligible :
    (ResourceCeilings.mk []).isEligible [("cpu", 1)] = false ∧
    (ResourceCeilings.mk [("memory", 8)]).isEligible [("cpu", 1)] = false ∧
    (ResourceCeilings.mk [("cpu", 4)]).isEligible [("cpu", 4)] = false ∧
    (ResourceCeilings.mk [("cpu", 4)]).isEligible [("cpu", 2)] = true := by
  decide

/-- C5. After `update d q` the ceiling of `d` is recorded, is `q` when `d` was absent or `q`
was smaller and the old ceiling otherwise, hence at most `q` and at most the old ceiling;
every other dimension is unchanged. After `updateAll resources` every entry `(d, q)` of
`resources` has a recorded ceiling at most `q`, no recorded ceiling has grown, and every
dimension that is not a key of `resources` is unchanged. -/
theorem C5_update_only_lowers (r : ResourceCeilings) (d : ResourceName) (q : Quantity)
    (resources : ResourceList) :
    (GoMap.load (r.update d q).resourceCeilings d =
        some (match GoMap.load r.resourceCeilings d with
              | none => q
              | some c0 => if q < c0 then q else c0)) ∧
    (∃ c, GoMap.load (r.update d q).resourceCeilings d = some c ∧ c ≤ q ∧
        ∀ c0, GoMap.load r.resourceCeilings d = some c0 → c ≤ c0) ∧
    (∀ other, other ≠ d →
        GoMap.load (r.update d q).resourceCeilings other
          = GoMap.load r.resourceCeilings other) ∧
    (∀ e ∈ resources,
        ∃ c, GoMap.load (r.updateAll resources).resourceCeilings e.1 = some c ∧ c ≤ e.2) ∧
    (∀ other c0, GoMap.load r.resourceCeilings other = some c0 →
        ∃ c, GoMap.load (r.updateAll resources).resourceCeilings other = some c ∧ c ≤ c0) ∧
    (∀ other, (∀ e ∈ resources, e.1 ≠ other) →
        GoMap.load (r.updateAll resources).resourceCeilings other
          = GoMap.load r.resourceCeilings other) := by
  refine ⟨ResourceCeilings.load_update_self r d q, ?_,
    fun other hne => ResourceCeilings.load_update_ne r d other q hne,
    ResourceCeilings.updateAll_le resources r,
    ResourceCeilings.updateAll_mono resources r,
    ResourceCeilings.updateAll_untouched resources r⟩
  obtain ⟨c, hc, hle⟩ := ResourceCeilings.update_le r d q
  refine ⟨c, hc, hle, ?_⟩
  intro c0 h0
  obtain ⟨c1, hc1, hle1⟩ := ResourceCeilings.update_mono r d d q c0 h0
  rw [hc] at hc1
  cases hc1
  exact hle1

end K8s

namespace K8s

/-- C6. When `handle` attempts the operation and the operation returns no error, `handle`
returns nil; afterwards the exponent is 0, nextEligibleTime is the time read by the reset,
so it is not after any later current time, and the recorded ceilings are those recorded
before, each now equal to the sentinel `inf`, the quantity 1Ei = 2^60 =
1152921504606846976. -/
theorem C6_success_resets {W : Type} (h : ResourceAwareBackOffHandler)
    (mustParse : String → Option Quantity) (now resetNow : Time)
    (operation : W → Option K8sError × W) (w : W) (requestedResourceList : ResourceList)
    (hattempt : (!h.toSimpleBackOffBlocker.isActive now ||
      h.toResourceCeilings.isEligible requestedResourceList) = true)
    (hok : (operation w).1 = none) :
    (h.handle mustParse now resetNow operation w requestedResourceList).outcome
      = Outcome.returned none ∧
    (h.handle mustParse now resetNow operation w requestedResourceList).handler.backOffExponent
      = 0 ∧
    (h.handle mustParse now resetNow operation w requestedResourceList).handler.nextEligibleTime
      = resetNow ∧
    (∀ t : Time, resetNow ≤ t →
      Time.Before t (h.handle mustParse now resetNow operation w
        requestedResourceList).handler.nextEligibleTime = false) ∧
    (∀ d c, GoMap.load (h.handle mustParse now resetNow operation w
        requestedResourceList).handler.resourceCeilings d = some c →
      c = ResourceCeilings.inf ∧ c = 2 ^ 60 ∧ c = 1152921504606846976) ∧
    (∀ d, (GoMap.load (h.handle mustParse now resetNow operation w
        requestedResourceList).handler.resourceCeilings d).isSome
      = (GoMap.load h.resourceCeilings d).isSome) := by
  have hres : h.handle mustParse now resetNow operation w requestedResourceList
      = { outcome := Outcome.returned none,
          handler :=
            { toSimpleBackOffBlocker := h.toSimpleBackOffBlocker.reset resetNow,
              toResourceCeilings := h.toResourceCeilings.resetAll },
          world := (operation w).2 } := by
    unfold ResourceAwareBackOffHandler.handle
    rw [if_pos hattempt]
    rcases hop : operation w with ⟨e, w1⟩
    rw [hop] at hok
    simp only at hok
    subst hok
    rfl
  rw [hres]
  refine ⟨rfl, rfl, rfl, ?_, ?_, ?_⟩
  · intro t ht
    simp only [SimpleBackOffBlocker.reset, Time.Before, decide_eq_false_iff_not, not_lt]
    exact ht
  · intro d c hc
    have hl := ResourceCeilings.load_resetAll h.toResourceCeilings d
    simp only at hc
    rw [hl] at hc
    have hinf : c = ResourceCeilings.inf := by
      cases hd : GoMap.load h.resourceCeilings d with
      | none => rw [hd] at hc; simp at hc
      | some c0 => rw [hd] at hc; simpa using hc.symm
    subst hinf
    refine ⟨rfl, rfl, ?_⟩
    unfold ResourceCeilings.inf
    norm_num
  · intro d
    have hl := ResourceCeilings.load_resetAll h.toResourceCeilings d
    simp only
    rw [hl]
    simp

/-- C6 at a concrete input: window open until 10, ceiling cpu=4, request cpu=2 at time 5,
reset at time 6; the ceiling of cpu becomes the sentinel 1Ei = 2^60 =
1152921504606846976. -/
theorem C6_success_resets_witness :
    ((windowedHandler 4).handle parseSmall 5 6 succeeds () [("cpu", 2)]).outcome
      = Outcome.returned none ∧
    ((windowedHandler 4).handle parseSmall 5 6 succeeds () [("cpu", 2)]).handler.backOffExponent
      = 0 ∧
    ((windowedHandler 4).handle parseSmall 5 6 succeeds () [("cpu", 2)]).handler.nextEligibleTime
      = 6 ∧
    GoMap.load ((windowedHandler 4).handle parseSmall 5 6 succeeds ()
        [("cpu", 2)]).handler.resourceCeilings "cpu" = some ResourceCeilings.inf ∧
    GoMap.load ((windowedHandler 4).handle parseSmall 5 6 succeeds ()
        [("cpu", 2)]).handler.resourceCeilings "cpu" = some (2 ^ 60) ∧
    GoMap.load ((windowedHandler 4).handle parseSmall 5 6 succeeds ()
        [("cpu", 2)]).handler.resourceCeilings "cpu" = some 1152921504606846976 ∧
    GoMap.load ((windowedHandler 4).handle parseSmall 5 6 succeeds ()
        [("cpu", 2)]).handler.resourceCeilings "cpu" ≠ some 4 :=
  have hall := C6_success_resets (windowedHandler 4) parseSmall 5 6 succeeds () [("cpu", 2)]
    (by decide) (by decide)
  ⟨hall.1, hall.2.1, hall.2.2.1, by decide, by decide, by decide, by decide⟩

/-- Whenever the pattern matches the error text at least once, the first write into the nil
slice `temp` is out of range and `GetResourceAndQuantityRequested` panics. -/
theorem GetResourceAndQuantityRequested_panics_of_match (mustParse : String → Option Quantity)
    (err : K8sError) (hm : FindAllStringSubmatch err.message ≠ []) :
    GetResourceAndQuantityRequested mustParse err
      = Except.error (Panic.indexOutOfRange 0 0) := by
  unfold GetResourceAndQuantityRequested
  cases hf : FindAllStringSubmatch err.message with
  | nil => exact absurd hf hm
  | cons mat rest => simp [collectSubmatches, sliceSet]

/-- C7 (the code at the failing input). The rejection is classified as quota-exceeded and
its text has the one match `requested: limits.cpu=4`, with the groups `cpu` and `4`; on
it `GetResourceAndQuantityRequested` returns no list but panics with an index out of
range (index 0 of the nil slice `temp`), and so does `handle` after having invoked the
operation once, leaving the ceilings as they were. -/
theorem C7_quota_rejection_panics :
    IsResourceQuotaExceeded quotaRejection = true ∧
    FindAllStringSubmatch quotaRejection.message
      = [["requested: limits.cpu=4", "requested", "cpu", "4"]] ∧
    GetResourceAndQuantityRequested parseSmall quotaRejection
      = Except.error (Panic.indexOutOfRange 0 0) ∧
    ((windowedHandler 8).handle parseSmall 5 6 (counted (failsWith quotaRejection)) ((), 0)
        [("cpu", 4)]).outcome = Outcome.panicked (Panic.indexOutOfRange 0 0) ∧
    ((windowedHandler 8).handle parseSmall 5 6 (counted (failsWith quotaRejection)) ((), 0)
        [("cpu", 4)]).world = ((), 1) ∧
    ((windowedHandler 8).handle parseSmall 5 6 (counted (failsWith quotaRejection)) ((), 0)
        [("cpu", 4)]).handler = windowedHandler 8 := by
  refine ⟨by decide, by decide, rfl, by decide, by decide, by decide⟩

/-! ## The time-based blocker -/

/-- C8 (the code at the failing inputs). When the operation fails, the delay added to the
time read after the operation is 1 nanosecond for exponent 0 (not 1 second), 2 seconds
for exponent 1, and the cap of 600 seconds for exponent 2 (not 4 seconds): the power is
taken of the base counted in nanoseconds. -/
theorem C8_delay_is_power_of_nanoseconds (ovf : Int) (later : Time) (err : K8sError) :
    (SimpleBackOffBlocker.handle { backOffExponent := 0, nextEligibleTime := 0 } ovf 1 later
        (failsWith err) ()).blocker.nextEligibleTime = later + 1 ∧
    (SimpleBackOffBlocker.handle { backOffExponent := 1, nextEligibleTime := 0 } ovf 1 later
        (failsWith err) ()).blocker.nextEligibleTime = later + 2000000000 ∧
    (SimpleBackOffBlocker.handle { backOffExponent := 2, nextEligibleTime := 0 } ovf 1 later
        (failsWith err) ()).blocker.nextEligibleTime = later + 600000000000 := by
  have h0 : backOffDuration ovf 0 = 1 := by
    simp [backOffDuration, powDuration, maxBackoffTime]
  have h1 : backOffDuration ovf 1 = 2000000000 := by
    simp [backOffDuration, powDuration, maxBackoffTime, backOffBase]
  have h2 : backOffDuration ovf 2 = 600000000000 := by
    simp [backOffDuration, powDuration, maxBackoffTime, backOffBase]
  refine ⟨?_, ?_, ?_⟩
  · simp [SimpleBackOffBlocker.handle, Time.Before, failsWith, h0]
  · simp [SimpleBackOffBlocker.handle, Time.Before, failsWith, h1]
  · simp [SimpleBackOffBlocker.handle, Time.Before, failsWith, h2]

end K8s

namespace workflowstore

/-! ## The resource-version caching store -/

theorem clearManagedFields_ResourceVersion (workflow : FlyteWorkflow) :
    (clearManagedFields workflow).ResourceVersion = workflow.ResourceVersion := by
  unfold clearManagedFields; split <;> rfl

theorem clearManagedFields_Namespace (workflow : FlyteWorkflow) :
    (clearManagedFields workflow).Namespace = workflow.Namespace := by
  unfold clearManagedFields; split <;> rfl

theorem clearManagedFields_Name (workflow : FlyteWorkflow) :
    (clearManagedFields workflow).Name = workflow.Name := by
  unfold clearManagedFields; split <;> rfl

theorem clearManagedFields_Status (workflow : FlyteWorkflow) :
    (clearManagedFields workflow).Status = workflow.Status := by
  unfold clearManagedFields; split <;> rfl

/-- The version cache after the statements that follow a successful write. -/
theorem afterWrite_cache {F : Type} (flt : Filter F) (r : resourceVersionCaching F)
    (workflow newWF : FlyteWorkflow) :
    (afterWrite flt r workflow newWF).lastUpdatedResourceVersionCache =
      if newWF.ResourceVersion ≠ workflow.ResourceVersion then
        (updateRevisionCache r workflow.Namespace workflow.Name workflow.ResourceVersion
          workflow.Status.IsTerminated).lastUpdatedResourceVersionCache
      else r.lastUpdatedResourceVersionCache := by
  unfold afterWrite
  by_cases hne : newWF.ResourceVersion ≠ workflow.ResourceVersion
  · by_cases ht : newWF.GetExecutionStatus.IsTerminated = true
    · simp [hne, ht]
    · simp [hne, ht]
  · by_cases ht : newWF.GetExecutionStatus.IsTerminated = true
    · simp [hne, ht]
    · simp [hne, ht]

/-- The result of `Get` for a key outside the terminated filter whose fetch succeeds. -/
theorem Get_result_of_fetched {F W : Type} (flt : Filter F) (u : Underlying W)
    (r : resourceVersionCaching F) (world world1 : W) (ns name : String)
    (fetched : FlyteWorkflow)
    (hflt : flt.Contains r.terminatedFilter (resourceVersionKey ns name) = false)
    (hget : u.Get world ns name = (Except.ok (some fetched), world1)) :
    (Get flt u r world ns name).result =
      if GoMap.load r.lastUpdatedResourceVersionCache (resourceVersionKey ns name)
          = some fetched.ResourceVersion
      then Except.error StoreError.ErrStaleWorkflowError
      else Except.ok (some fetched) := by
  unfold Get
  simp only [hflt, hget, Bool.false_eq_true, if_false]
  unfold isResourceVersionSameAsPrevious
  cases hl : GoMap.load r.lastUpdatedResourceVersionCache (resourceVersionKey ns name) with
  | none => simp
  | some strV =>
    by_cases hv : strV = fetched.ResourceVersion
    · simp [hv]
    · simp [hv]

/-- C9 (counterexample). The running workflow ns/wf is supplied with token "1" and the
underlying store returns it with token "2": the update succeeds, the tokens differ, yet
the version cache afterwards maps ns/wf to "1" and not to the returned token "2", and a
following Get whose fetch yields token "2" returns the workflow instead of the stale
error. -/
theorem C9_cache_holds_returned_token_counterexample :
    (runningWorkflow "1").Status.IsTerminated = false ∧
    (Update listFilter (constUnderlying (runningWorkflow "2")) (storeWithCache []) 0
        (runningWorkflow "1") 0).result = Except.ok (some (runningWorkflow "2")) ∧
    (runningWorkflow "2").ResourceVersion ≠ (runningWorkflow "1").ResourceVersion ∧
    GoMap.load (Update listFilter (constUnderlying (runningWorkflow "2")) (storeWithCache []) 0
        (runningWorkflow "1") 0).store.lastUpdatedResourceVersionCache
        (resourceVersionKey "ns" "wf") = some "1" ∧
    GoMap.load (Update listFilter (constUnderlying (runningWorkflow "2")) (storeWithCache []) 0
        (runningWorkflow "1") 0).store.lastUpdatedResourceVersionCache
        (resourceVersionKey "ns" "wf") ≠ some "2" ∧
    (Get listFilter (constUnderlying (runningWorkflow "2"))
        (Update listFilter (constUnderlying (runningWorkflow "2")) (storeWithCache []) 0
          (runningWorkflow "1") 0).store 1 "ns" "wf").result
      = Except.ok (some (runningWorkflow "2")) := by
  refine ⟨rfl, rfl, by decide, by decide, by decide, rfl⟩

/-- C9 (amended). For every successful Update or UpdateStatus of a non-terminated workflow
in which the underlying store returns a workflow whose version token differs from the
token of the supplied workflow, the call returns the new workflow and the version cache
afterwards maps the key namespace/name to the supplied token; so a following Get for that
key, while the key is not in the terminated filter, fails with the stale error when its
fetch yields the supplied token and returns the fetched workflow when it yields any other
token, the returned one included. -/
theorem C9_write_caches_supplied_token {F W : Type} (flt : Filter F) (u : Underlying W)
    (r : resourceVersionCaching F) (world world1 : W) (workflow newWF : FlyteWorkflow)
    (priorityClass : PriorityClass) (res : CallResult F W)
    (hcall :
      (res = Update flt u r world workflow priorityClass ∧
        u.Update world (clearManagedFields workflow) priorityClass
          = (Except.ok (some newWF), world1)) ∨
      (res = UpdateStatus flt u r world workflow priorityClass ∧
        u.UpdateStatus world workflow priorityClass = (Except.ok (some newWF), world1)))
    (hnt : workflow.Status.IsTerminated = false)
    (hne : newWF.ResourceVersion ≠ workflow.ResourceVersion) :
    res.result = Except.ok (some newWF) ∧
    GoMap.load res.store.lastUpdatedResourceVersionCache
        (resourceVersionKey workflow.Namespace workflow.Name) = some workflow.ResourceVersion ∧
    ∀ (world2 world3 : W) (fetched : FlyteWorkflow),
      flt.Contains res.store.terminatedFilter
        (resourceVersionKey workflow.Namespace workflow.Name) = false →
      u.Get world2 workflow.Namespace workflow.Name = (Except.ok (some fetched), world3) →
      (fetched.ResourceVersion = workflow.ResourceVersion →
        (Get flt u res.store world2 workflow.Namespace workflow.Name).result
          = Except.error StoreError.ErrStaleWorkflowError) ∧
      (fetched.ResourceVersion ≠ workflow.ResourceVersion →
        (Get flt u res.store world2 workflow.Namespace workflow.Name).result
          = Except.ok (some fetched)) := by
  have hcache : res.result = Except.ok (some newWF) ∧
      GoMap.load res.store.lastUpdatedResourceVersionCache
        (resourceVersionKey workflow.Namespace workflow.Name)
        = some workflow.ResourceVersion := by
    rcases hcall with ⟨hres, hup⟩ | ⟨hres, hup⟩
    · subst hres
      unfold Update
      rw [hup]
      refine ⟨rfl, ?_⟩
      simp only
      rw [afterWrite_cache]
      simp only [clearManagedFields_ResourceVersion, clearManagedFields_Namespace,
        clearManagedFields_Name, clearManagedFields_Status, ne_eq, hne, not_false_eq_true,
        if_true]
      unfold updateRevisionCache
      simp [hnt, GoMap.load_store_self]
    · subst hres
      unfold UpdateStatus
      rw [hup]
      refine ⟨rfl, ?_⟩
      simp only
      rw [afterWrite_cache]
      simp only [ne_eq, hne, not_false_eq_true, if_true]
      unfold updateRevisionCache
      simp [hnt, GoMap.load_store_self]
  refine ⟨hcache.1, hcache.2, ?_⟩
  intro world2 world3 fetched hflt hget
  rw [Get_result_of_fetched flt u res.store world2 world3 _ _ fetched hflt hget, hcache.2]
  constructor
  · intro heq
    simp [heq]
  · intro hneq
    have : ¬ workflow.ResourceVersion = fetched.ResourceVersion := fun h => hneq h.symm
    simp [this]

/-- C9 (amended) at a concrete input: ns/wf supplied with token "1", returned with token
"2"; the cache then holds "1". -/
theorem C9_write_caches_supplied_token_witness :
    GoMap.load (Update listFilter (constUnderlying (runningWorkflow "2")) (storeWithCache []) 0
        (runningWorkflow "1") 0).store.lastUpdatedResourceVersionCache
        (resourceVersionKey (runningWorkflow "1").Namespace (runningWorkflow "1").Name)
      = some (runningWorkflow "1").ResourceVersion :=
  (C9_write_caches_supplied_token listFilter (constUnderlying (runningWorkflow "2"))
    (storeWithCache []) 0 1 (runningWorkflow "1") (runningWorkflow "2") 0 _
    (Or.inl ⟨rfl, rfl⟩) rfl (by decide)).2.1

/-- C10. For a key that is not in the terminated filter and for which the underlying Get
returns a workflow without error, Get fails with ErrStaleWorkflowError, returning no
object, when the fetched version token equals the token cached for namespace/name, and
returns the fetched workflow unchanged without error when the cached token differs or
no token is cached for the key. -/
theorem C10_get_stale_or_fetched {F W : Type} (flt : Filter F) (u : Underlying W)
    (r : resourceVersionCaching F) (world world1 : W) (ns name : String)
    (fetched : FlyteWorkflow)
    (hflt : flt.Contains r.terminatedFilter (resourceVersionKey ns name) = false)
    (hget : u.Get world ns name = (Except.ok (some fetched), world1)) :
    (GoMap.load r.lastUpdatedResourceVersionCache (resourceVersionKey ns name)
        = some fetched.ResourceVersion →
      (Get flt u r world ns name).result = Except.error StoreError.ErrStaleWorkflowError) ∧
    (∀ cached, GoMap.load r.lastUpdatedResourceVersionCache (resourceVersionKey ns name)
        = some cached → cached ≠ fetched.ResourceVersion →
      (Get flt u r world ns name).result = Except.ok (some fetched)) ∧
    (GoMap.load r.lastUpdatedResourceVersionCache (resourceVersionKey ns name) = none →
      (Get flt u r world ns name).result = Except.ok (some fetched)) := by
  rw [Get_result_of_fetched flt u r world world1 ns name fetched hflt hget]
  refine ⟨fun h => by simp [h], fun cached h hne => ?_, fun h => by simp [h]⟩
  rw [h]
  simp [hne]

/-- C10 at concrete inputs: with "1" cached for ns/wf, a fetch yielding token "1" is stale. -/
theorem C10_get_stale_or_fetched_witness :
    (Get listFilter (constUnderlying (runningWorkflow "1")) (storeWithCache [("ns/wf", "1")]) 0
        "ns" "wf").result = Except.error StoreError.ErrStaleWorkflowError :=
  (C10_get_stale_or_fetched listFilter (constUnderlying (runningWorkflow "1"))
    (storeWithCache [("ns/wf", "1")]) 0 1 "ns" "wf" (runningWorkflow "1")
    (by decide) rfl).1 (by decide)

end workflowstore

namespace workflowstore

/-! ## The terminated filter and the writes -/

/-- The terminated filter after the statements that follow a successful write. -/
theorem afterWrite_terminatedFilter {F : Type} (flt : Filter F) (r : resourceVersionCaching F)
    (workflow newWF : FlyteWorkflow) :
    (afterWrite flt r workflow newWF).terminatedFilter =
      if newWF.GetExecutionStatus.IsTerminated then
        flt.Add r.terminatedFilter (resourceVersionKey workflow.Namespace workflow.Name)
      else r.terminatedFilter := by
  unfold afterWrite
  by_cases hne : newWF.ResourceVersion ≠ workflow.ResourceVersion
  · by_cases ht : newWF.GetExecutionStatus.IsTerminated = true
    · by_cases hs : workflow.Status.IsTerminated = true
      · simp [hne, ht, hs, updateRevisionCache]
      · simp [hne, ht, hs, updateRevisionCache]
    · by_cases hs : workflow.Status.IsTerminated = true
      · simp [hne, ht, hs, updateRevisionCache]
      · simp [hne, ht, hs, updateRevisionCache]
  · by_cases ht : newWF.GetExecutionStatus.IsTerminated = true
    · simp [hne, ht]
    · simp [hne, ht]

/-- The counters after the statements that follow a successful write with an unchanged
token. -/
theorem afterWrite_metrics_of_same_token {F : Type} (flt : Filter F)
    (r : resourceVersionCaching F) (workflow newWF : FlyteWorkflow)
    (heq : newWF.ResourceVersion = workflow.ResourceVersion) :
    (afterWrite flt r workflow newWF).metrics =
      { r.metrics with
        workflowRedundantUpdatesCount := r.metrics.workflowRedundantUpdatesCount + 1 } := by
  unfold afterWrite
  by_cases ht : newWF.GetExecutionStatus.IsTerminated = true
  · simp [heq, ht]
  · simp [heq, ht]

/-- What a successful `Update` or `UpdateStatus` leaves behind: the result and the store
computed by `afterWrite` from an object with the namespace, name, token and status of the
supplied workflow. -/
theorem write_store_eq {F W : Type} (flt : Filter F) (u : Underlying W)
    (r : resourceVersionCaching F) (world world1 : W) (workflow newWF : FlyteWorkflow)
    (priorityClass : PriorityClass) (res : CallResult F W)
    (hcall :
      (res = Update flt u r world workflow priorityClass ∧
        u.Update world (clearManagedFields workflow) priorityClass
          = (Except.ok (some newWF), world1)) ∨
      (res = UpdateStatus flt u r world workflow priorityClass ∧
        u.UpdateStatus world workflow priorityClass = (Except.ok (some newWF), world1))) :
    res.result = Except.ok (some newWF) ∧
    ∃ supplied : FlyteWorkflow,
      res.store = afterWrite flt r supplied newWF ∧
      supplied.Namespace = workflow.Namespace ∧ supplied.Name = workflow.Name ∧
      supplied.ResourceVersion = workflow.ResourceVersion ∧
      supplied.Status = workflow.Status := by
  rcases hcall with ⟨hres, hup⟩ | ⟨hres, hup⟩
  · subst hres
    unfold Update
    rw [hup]
    exact ⟨rfl, clearManagedFields workflow, rfl, clearManagedFields_Namespace workflow,
      clearManagedFields_Name workflow, clearManagedFields_ResourceVersion workflow,
      clearManagedFields_Status workflow⟩
  · subst hres
    unfold UpdateStatus
    rw [hup]
    exact ⟨rfl, workflow, rfl, rfl, rfl, rfl, rfl⟩

/-- A filter of capacity at least one contains the key that was just added. -/
theorem lruFilter_contains_added (capacity : Nat) (f : List String) (key : String) :
    (lruFilter (capacity + 1)).Contains ((lruFilter (capacity + 1)).Add f key) key = true := by
  simp [lruFilter]

/-- C11. For every key that is a member of the terminated filter, Get returns
ErrWorkflowTerminated with no object and does not touch the underlying store: the world
and the store are as before, whatever the underlying store is. A successful Update or
UpdateStatus whose resulting workflow is terminal adds the key of the supplied workflow to
the filter; every later Get for that key is cut short in this way for as long as the key
is a member, that is, has not been evicted. -/
theorem C11_get_terminated_short_circuits {F W : Type} (flt : Filter F) (u : Underlying W) :
    (∀ (r : resourceVersionCaching F) (world : W) (ns name : String),
      flt.Contains r.terminatedFilter (resourceVersionKey ns name) = true →
      (Get flt u r world ns name).result = Except.error StoreError.ErrWorkflowTerminated ∧
      (Get flt u r world ns name).world = world ∧
      (Get flt u r world ns name).store.terminatedFilter = r.terminatedFilter ∧
      (Get flt u r world ns name).store.lastUpdatedResourceVersionCache
        = r.lastUpdatedResourceVersionCache ∧
      (Get flt u r world ns name).store.metrics = r.metrics) ∧
    (∀ (r : resourceVersionCaching F) (world world1 : W) (workflow newWF : FlyteWorkflow)
      (priorityClass : PriorityClass) (res : CallResult F W),
      ((res = Update flt u r world workflow priorityClass ∧
          u.Update world (clearManagedFields workflow) priorityClass
            = (Except.ok (some newWF), world1)) ∨
        (res = UpdateStatus flt u r world workflow priorityClass ∧
          u.UpdateStatus world workflow priorityClass = (Except.ok (some newWF), world1))) →
      newWF.GetExecutionStatus.IsTerminated = true →
      res.store.terminatedFilter
        = flt.Add r.terminatedFilter (resourceVersionKey workflow.Namespace workflow.Name)) := by
  constructor
  · intro r world ns name hmem
    unfold Get
    simp [hmem]
  · intro r world world1 workflow newWF priorityClass res hcall hterm
    obtain ⟨_, supplied, hstore, hns, hname, _, _⟩ :=
      write_store_eq flt u r world world1 workflow newWF priorityClass res hcall
    rw [hstore, afterWrite_terminatedFilter, hns, hname]
    simp [hterm]

/-- C11 at a concrete input: after the update of ns/wf to a terminal state through a filter
of capacity 1000, Get for ns/wf returns ErrWorkflowTerminated and the call counter of the
underlying store stays at 1, the update. -/
theorem C11_get_terminated_short_circuits_witness :
    (Get (lruFilter 1000) (constUnderlying (terminatedWorkflow "2"))
        (Update (lruFilter 1000) (constUnderlying (terminatedWorkflow "2")) (storeWithCache []) 0
          (terminatedWorkflow "1") 0).store 1 "ns" "wf").result
      = Except.error StoreError.ErrWorkflowTerminated ∧
    (Get (lruFilter 1000) (constUnderlying (terminatedWorkflow "2"))
        (Update (lruFilter 1000) (constUnderlying (terminatedWorkflow "2")) (storeWithCache []) 0
          (terminatedWorkflow "1") 0).store 1 "ns" "wf").world = 1 :=
  have h := (C11_get_terminated_short_circuits (lruFilter 1000)
    (constUnderlying (terminatedWorkflow "2"))).1
    (Update (lruFilter 1000) (constUnderlying (terminatedWorkflow "2")) (storeWithCache []) 0
      (terminatedWorkflow "1") 0).store 1 "ns" "wf" (by decide)
  ⟨h.1, h.2.1⟩

end workflowstore

namespace workflowstore

/-- C12 (counterexample). First input: ns/wf is cached with token "1"; the terminal workflow
is supplied with token "1" and the underlying store returns it, terminal, with the same
token "1"; the update succeeds and its result is terminal, yet the version cache still
holds the entry "1" for ns/wf. Second input: nothing is cached; the workflow is supplied
running with token "1" and returned terminal with token "2"; the version cache afterwards
holds "1" for ns/wf. -/
theorem C12_cache_entry_dropped_counterexample :
    (Update (lruFilter 1000) (constUnderlying (terminatedWorkflow "1"))
        (storeWithCache [("ns/wf", "1")]) 0 (terminatedWorkflow "1") 0).result
      = Except.ok (some (terminatedWorkflow "1")) ∧
    (terminatedWorkflow "1").GetExecutionStatus.IsTerminated = true ∧
    GoMap.load (Update (lruFilter 1000) (constUnderlying (terminatedWorkflow "1"))
        (storeWithCache [("ns/wf", "1")]) 0
        (terminatedWorkflow "1") 0).store.lastUpdatedResourceVersionCache
        (resourceVersionKey "ns" "wf") = some "1" ∧
    (Update (lruFilter 1000) (constUnderlying (terminatedWorkflow "2"))
        (storeWithCache []) 0 (runningWorkflow "1") 0).result
      = Except.ok (some (terminatedWorkflow "2")) ∧
    GoMap.load (Update (lruFilter 1000) (constUnderlying (terminatedWorkflow "2"))
        (storeWithCache []) 0
        (runningWorkflow "1") 0).store.lastUpdatedResourceVersionCache
        (resourceVersionKey "ns" "wf") = some "1" := by
  refine ⟨rfl, rfl, by decide, rfl, by decide⟩

/-- C12 (amended). For every successful Update or UpdateStatus whose resulting workflow is
in a terminal execution state, the key namespace/name has afterwards been added to the
terminated filter, so it is a member of any filter that contains what was just added to it;
the version cache holds no entry for that key, whatever entry it held before, when the
version token changed and the supplied workflow is itself in a terminal state; and when
the version token did not change the version cache is left as it was. -/
theorem C12_terminal_write {F W : Type} (flt : Filter F) (u : Underlying W)
    (r : resourceVersionCaching F) (world world1 : W) (workflow newWF : FlyteWorkflow)
    (priorityClass : PriorityClass) (res : CallResult F W)
    (hcall :
      (res = Update flt u r world workflow priorityClass ∧
        u.Update world (clearManagedFields workflow) priorityClass
          = (Except.ok (some newWF), world1)) ∨
      (res = UpdateStatus flt u r world workflow priorityClass ∧
        u.UpdateStatus world workflow priorityClass = (Except.ok (some newWF), world1)))
    (hterm : newWF.GetExecutionStatus.IsTerminated = true) :
    res.store.terminatedFilter
      = flt.Add r.terminatedFilter (resourceVersionKey workflow.Namespace workflow.Name) ∧
    ((∀ f key, flt.Contains (flt.Add f key) key = true) →
      flt.Contains res.store.terminatedFilter
        (resourceVersionKey workflow.Namespace workflow.Name) = true) ∧
    (newWF.ResourceVersion ≠ workflow.ResourceVersion →
      workflow.Status.IsTerminated = true →
      GoMap.load res.store.lastUpdatedResourceVersionCache
        (resourceVersionKey workflow.Namespace workflow.Name) = none) ∧
    (newWF.ResourceVersion = workflow.ResourceVersion →
      res.store.lastUpdatedResourceVersionCache = r.lastUpdatedResourceVersionCache) := by
  obtain ⟨_, supplied, hstore, hns, hname, hrv, hst⟩ :=
    write_store_eq flt u r world world1 workflow newWF priorityClass res hcall
  have hfilter : res.store.terminatedFilter
      = flt.Add r.terminatedFilter (resourceVersionKey workflow.Namespace workflow.Name) := by
    rw [hstore, afterWrite_terminatedFilter, hns, hname]
    simp [hterm]
  refine ⟨hfilter, ?_, ?_, ?_⟩
  · intro hlaw
    rw [hfilter]
    exact hlaw _ _
  · intro hne hsupplied
    rw [hstore, afterWrite_cache, hrv, hst, hns, hname]
    simp only [ne_eq, hne, not_false_eq_true, if_true]
    unfold updateRevisionCache
    simp [hsupplied, GoMap.load_delete_self]
  · intro heq
    rw [hstore, afterWrite_cache, hrv]
    simp [heq]

/-- C12 (amended) at a concrete input: ns/wf, cached with token "1", is supplied terminal
with token "1" and returned terminal with token "2"; afterwards the key is in the filter
and the cache has no entry for it. -/
theorem C12_terminal_write_witness :
    (lruFilter 1000).Contains
      (Update (lruFilter 1000) (constUnderlying (terminatedWorkflow "2"))
        (storeWithCache [("ns/wf", "1")]) 0 (terminatedWorkflow "1") 0).store.terminatedFilter
      (resourceVersionKey (terminatedWorkflow "1").Namespace (terminatedWorkflow "1").Name)
      = true ∧
    GoMap.load (Update (lruFilter 1000) (constUnderlying (terminatedWorkflow "2"))
        (storeWithCache [("ns/wf", "1")]) 0
        (terminatedWorkflow "1") 0).store.lastUpdatedResourceVersionCache
        (resourceVersionKey (terminatedWorkflow "1").Namespace (terminatedWorkflow "1").Name)
      = none :=
  have h := C12_terminal_write (lruFilter 1000) (constUnderlying (terminatedWorkflow "2"))
    (storeWithCache [("ns/wf", "1")]) 0 1 (terminatedWorkflow "1") (terminatedWorkflow "2") 0 _
    (Or.inl ⟨rfl, rfl⟩) rfl
  ⟨h.2.1 (fun f key => lruFilter_contains_added 999 f key), h.2.2.1 (by decide) rfl⟩

/-- C13. For every successful Update or UpdateStatus in which the underlying store returns
a workflow whose version token equals the token of the supplied workflow, the version
cache is exactly what it was before the call and the redundant-update counter is one
higher; the other two counters are unchanged. -/
theorem C13_redundant_update {F W : Type} (flt : Filter F) (u : Underlying W)
    (r : resourceVersionCaching F) (world world1 : W) (workflow newWF : FlyteWorkflow)
    (priorityClass : PriorityClass) (res : CallResult F W)
    (hcall :
      (res = Update flt u r world workflow priorityClass ∧
        u.Update world (clearManagedFields workflow) priorityClass
          = (Except.ok (some newWF), world1)) ∨
      (res = UpdateStatus flt u r world workflow priorityClass ∧
        u.UpdateStatus world workflow priorityClass = (Except.ok (some newWF), world1)))
    (heq : newWF.ResourceVersion = workflow.ResourceVersion) :
    res.store.lastUpdatedResourceVersionCache = r.lastUpdatedResourceVersionCache ∧
    res.store.metrics.workflowRedundantUpdatesCount
      = r.metrics.workflowRedundantUpdatesCount + 1 ∧
    res.store.metrics.workflowStaleCount = r.metrics.workflowStaleCount ∧
    res.store.metrics.workflowEvictedCount = r.metrics.workflowEvictedCount := by
  obtain ⟨_, supplied, hstore, _, _, hrv, _⟩ :=
    write_store_eq flt u r world world1 workflow newWF priorityClass res hcall
  have heq2 : newWF.ResourceVersion = supplied.ResourceVersion := by rw [hrv]; exact heq
  refine ⟨?_, ?_, ?_, ?_⟩
  · rw [hstore, afterWrite_cache]
    simp [heq2]
  · rw [hstore, afterWrite_metrics_of_same_token flt r supplied newWF heq2]
  · rw [hstore, afterWrite_metrics_of_same_token flt r supplied newWF heq2]
  · rw [hstore, afterWrite_metrics_of_same_token flt r supplied newWF heq2]

/-- C13 at a concrete input: ns/wf cached with "0", supplied and returned with token "1":
the cache still holds "0" and the redundant counter went from 0 to 1. -/
theorem C13_redundant_update_witness :
    (UpdateStatus listFilter (constUnderlying (runningWorkflow "1"))
        (storeWithCache [("ns/wf", "0")]) 0
        (runningWorkflow "1") 0).store.lastUpdatedResourceVersionCache = [("ns/wf", "0")] ∧
    (UpdateStatus listFilter (constUnderlying (runningWorkflow "1"))
        (storeWithCache [("ns/wf", "0")]) 0
        (runningWorkflow "1") 0).store.metrics.workflowRedundantUpdatesCount = 0 + 1 :=
  have h := C13_redundant_update listFilter (constUnderlying (runningWorkflow "1"))
    (storeWithCache [("ns/wf", "0")]) 0 1 (runningWorkflow "1") (runningWorkflow "1") 0 _
    (Or.inr ⟨rfl, rfl⟩) rfl
  ⟨h.1, h.2.1⟩

/-- C14 (the code at the failing input). A workflow with two field-management entries is
written through a store that records the object it receives. Update hands over one entry,
the empty one; UpdateStatus hands over the workflow as supplied, with both entries. -/
theorem C14_update_status_keeps_managed_fields :
    (managedWorkflow "1").ManagedFields.length = 2 ∧
    (Update listFilter (recordingUnderlying (managedWorkflow "1")) (storeWithCache []) none
        (managedWorkflow "1") 0).world
      = some { managedWorkflow "1" with ManagedFields := [ManagedFieldsEntry.zero] } ∧
    (UpdateStatus listFilter (recordingUnderlying (managedWorkflow "1")) (storeWithCache []) none
        (managedWorkflow "1") 0).world = some (managedWorkflow "1") := by
  refine ⟨by decide, by decide, by decide⟩

end workflowstore

namespace workflowstore

/-- What `Update` hands to the underlying store has at most one field-management entry,
the empty one when the supplied workflow had any. -/
theorem clearManagedFields_ManagedFields (workflow : FlyteWorkflow) :
    (clearManagedFields workflow).ManagedFields =
      if workflow.ManagedFields = [] then [] else [ManagedFieldsEntry.zero] := by
  unfold clearManagedFields
  cases h : workflow.ManagedFields with
  | nil => simp [h]
  | cons e rest => simp

end workflowstore

namespace K8s

/-! ## The persisted state machine -/

/-- The log and the result of `Handle`, by cases on what the state reader reports and on how
the launch ends. -/
theorem HandleLogged_eq {W : Type} (readState : W → PluginStateRead × W)
    (launch check : W → CallOutcome × W)
    (putState : Nat → PluginState → W → Option TaskError × W) (w : W) :
    HandleLogged readState launch check putState w =
      match (readState w).1.err with
      | some err =>
        if (readState w).1.version ≠ pluginStateVersion then
          (CallOutcome.returned
            (DoTransition (PhaseInfoRetryableFailure "CorruptedPluginState"
              ("plugin state version mismatch expected [" ++ Nat.repr pluginStateVersion ++
                "] got [" ++ Nat.repr (readState w).1.version ++ "]"))) none,
            ((readState w).2, [Event.readState]))
        else
          (CallOutcome.returned UnknownTransition
            (some (TaskError.wrapf "CorruptedPluginState" err
              "Failed to read unmarshal custom state")),
            ((readState w).2, [Event.readState]))
      | none =>
        if (readState w).1.state.Phase = PluginPhaseNotStarted then
          match (launch (readState w).2).1 with
          | CallOutcome.panicked p =>
            (CallOutcome.panicked p, ((launch (readState w).2).2, [Event.readState, Event.launch]))
          | CallOutcome.returned t err =>
            if err = none ∧ t.info.phase = Phase.Queued then
              match (putState pluginStateVersion { Phase := PluginPhaseStarted }
                  (launch (readState w).2).2).1 with
              | some perr =>
                (CallOutcome.returned UnknownTransition (some perr),
                  ((putState pluginStateVersion { Phase := PluginPhaseStarted }
                      (launch (readState w).2).2).2,
                    [Event.readState, Event.launch,
                      Event.putState pluginStateVersion { Phase := PluginPhaseStarted }]))
              | none =>
                (CallOutcome.returned t err,
                  ((putState pluginStateVersion { Phase := PluginPhaseStarted }
                      (launch (readState w).2).2).2,
                    [Event.readState, Event.launch,
                      Event.putState pluginStateVersion { Phase := PluginPhaseStarted }]))
            else
              (CallOutcome.returned t err,
                ((launch (readState w).2).2, [Event.readState, Event.launch]))
        else
          ((check (readState w).2).1, ((check (readState w).2).2, [Event.readState, Event.check]))
        := by
  unfold HandleLogged Handle logged
  simp only [List.nil_append]
  cases herr : (readState w).1.err with
  | some err =>
    by_cases hv : (readState w).1.version = pluginStateVersion
    · simp [hv]
    · simp [hv]
  | none =>
    by_cases hp : (readState w).1.state.Phase = PluginPhaseNotStarted
    · simp only [hp, if_true]
      cases hl : (launch (readState w).2).1 with
      | panicked p => simp
      | returned t err =>
        by_cases hq : err = none ∧ t.info.phase = Phase.Queued
        · simp only [hq, and_self, if_true]
          cases hput : (putState pluginStateVersion { Phase := PluginPhaseStarted }
              (launch (readState w).2).2).1 with
          | some perr => simp
          | none => simp
        · simp [hq]
    · simp [hp]

end K8s

namespace K8s

/-- C15. Handle writes the persisted plugin state only when the state it read, without
error, has phase NotStarted and the launch returned no error with a transition of phase
Queued; what it writes is version 1 with phase Started, never AllocationTokenAcquired or
NotStarted. In that situation the write does happen within the call, after the launch:
the log of the call is read, launch, write. When the state read has any other phase,
Handle does not launch: the log is read, check, and the result is the result of the
check. -/
theorem C15_handle_state_writes {W : Type} (readState : W → PluginStateRead × W)
    (launch check : W → CallOutcome × W)
    (putState : Nat → PluginState → W → Option TaskError × W) (w : W) :
    (∀ version state,
      Event.putState version state ∈ (HandleLogged readState launch check putState w).2.2 →
      version = 1 ∧ state.Phase = PluginPhaseStarted ∧
      state.Phase ≠ PluginPhaseAllocationTokenAcquired ∧ state.Phase ≠ PluginPhaseNotStarted ∧
      (readState w).1.err = none ∧ (readState w).1.state.Phase = PluginPhaseNotStarted ∧
      ∃ t, (launch (readState w).2).1 = CallOutcome.returned t none ∧
        t.info.phase = Phase.Queued) ∧
    ((readState w).1.err = none → (readState w).1.state.Phase = PluginPhaseNotStarted →
      ∀ t, (launch (readState w).2).1 = CallOutcome.returned t none →
        t.info.phase = Phase.Queued →
        (HandleLogged readState launch check putState w).2.2
          = [Event.readState, Event.launch,
              Event.putState 1 { Phase := PluginPhaseStarted }]) ∧
    ((readState w).1.err = none → (readState w).1.state.Phase ≠ PluginPhaseNotStarted →
      (HandleLogged readState launch check putState w).2.2 = [Event.readState, Event.check] ∧
      (HandleLogged readState launch check putState w).1 = (check (readState w).2).1 ∧
      (HandleLogged readState launch check putState w).2.1 = (check (readState w).2).2) := by
  rw [HandleLogged_eq]
  refine ⟨?_, ?_, ?_⟩
  · intro version state hmem
    cases herr : (readState w).1.err with
    | some err =>
      rw [herr] at hmem
      by_cases hv : (readState w).1.version = pluginStateVersion
      · simp [hv] at hmem
      · simp [hv] at hmem
    | none =>
      rw [herr] at hmem
      by_cases hp : (readState w).1.state.Phase = PluginPhaseNotStarted
      · simp only [hp, if_true] at hmem
        cases hl : (launch (readState w).2).1 with
        | panicked p =>
          rw [hl] at hmem
          simp at hmem
        | returned t err =>
          rw [hl] at hmem
          by_cases hq : err = none ∧ t.info.phase = Phase.Queued
          · simp only [hq, and_self, if_true] at hmem
            have hput : Event.putState version state ∈
                [Event.readState, Event.launch,
                  Event.putState pluginStateVersion { Phase := PluginPhaseStarted }] := by
              cases hp2 : (putState pluginStateVersion { Phase := PluginPhaseStarted }
                  (launch (readState w).2).2).1 with
              | some perr => rw [hp2] at hmem; exact hmem
              | none => rw [hp2] at hmem; exact hmem
            simp only [List.mem_cons, List.mem_singleton, Event.putState.injEq,
              List.not_mem_nil, or_false, false_or, reduceCtorEq] at hput
            obtain ⟨hver, hstate⟩ := hput
            subst hver hstate
            obtain ⟨herrnone, hqueued⟩ := hq
            subst herrnone
            exact ⟨rfl, rfl, by decide, by decide, rfl, hp, t, rfl, hqueued⟩
          · simp [hq] at hmem
      · simp [hp] at hmem
  · intro herr hp t hl hq
    rw [herr]
    simp only [hp, if_true, hl, hq, and_self]
    cases (putState pluginStateVersion { Phase := PluginPhaseStarted }
        (launch (readState w).2).2).1 <;> rfl
  · intro herr hp
    rw [herr]
    simp [hp]

/-- C15 at a concrete input: the state read is NotStarted and the launch queues the task;
the log of the call is read, launch, write of version 1 with phase Started. -/
theorem C15_handle_state_writes_witness :
    (HandleLogged (readsState { version := 0, err := none, state := { Phase := 0 } })
        (endsWith queuedOutcome) (endsWith runningOutcome) putSucceeds ()).2.2
      = [Event.readState, Event.launch, Event.putState 1 { Phase := PluginPhaseStarted }] :=
  (C15_handle_state_writes (readsState { version := 0, err := none, state := { Phase := 0 } })
    (endsWith queuedOutcome) (endsWith runningOutcome) putSucceeds ()).2.1 rfl rfl
    (DoTransition (PhaseInfoQueued "task submitted to K8s")) rfl rfl

/-- C16 (counterexample). On the first call the state reader reports version 0, which
differs from the expected version 1, with no error and the zero state: Handle launches
and returns the Queued transition of the launch, not a RetryableFailure. With version 2,
no error and phase Started, Handle checks the resource and returns the result of the
check. -/
theorem C16_version_mismatch_counterexample :
    (0 : Nat) ≠ pluginStateVersion ∧
    HandleLogged (readsState { version := 0, err := none, state := { Phase := 0 } })
        (endsWith queuedOutcome) (endsWith runningOutcome) putSucceeds ()
      = (queuedOutcome,
          ((), [Event.readState, Event.launch,
                Event.putState 1 { Phase := PluginPhaseStarted }])) ∧
    (2 : Nat) ≠ pluginStateVersion ∧
    HandleLogged (readsState { version := 2, err := none, state := { Phase := 2 } })
        (endsWith queuedOutcome) (endsWith runningOutcome) putSucceeds ()
      = (runningOutcome, ((), [Event.readState, Event.check])) := by
  refine ⟨by decide, rfl, by decide, rfl⟩

/-- C16 (amended). For every persisted plugin state for which the state reader reports an
error together with a version that differs from the expected version 1, Handle returns a
RetryableFailure transition carrying the CorruptedPluginState code and no error, without
calling LaunchResource or CheckResourcePhase and without writing the state; and when the
reader reports an error together with version 1, Handle returns the unknown transition
with a (fatal) error that wraps the reader's error, again without any other call. -/
theorem C16_read_error {W : Type} (readState : W → PluginStateRead × W)
    (launch check : W → CallOutcome × W)
    (putState : Nat → PluginState → W → Option TaskError × W) (w : W) (err : TaskError)
    (herr : (readState w).1.err = some err) :
    (HandleLogged readState launch check putState w).2.2 = [Event.readState] ∧
    (HandleLogged readState launch check putState w).2.1 = (readState w).2 ∧
    ((readState w).1.version ≠ 1 →
      ∃ t, (HandleLogged readState launch check putState w).1 = CallOutcome.returned t none ∧
        t.info.phase = Phase.RetryableFailure ∧ t.info.code = "CorruptedPluginState") ∧
    ((readState w).1.version = 1 →
      (HandleLogged readState launch check putState w).1
        = CallOutcome.returned UnknownTransition
            (some (TaskError.wrapf "CorruptedPluginState" err
              "Failed to read unmarshal custom state"))) := by
  rw [HandleLogged_eq, herr]
  by_cases hv : (readState w).1.version = pluginStateVersion
  · have hv1 : (readState w).1.version = 1 := hv
    simp [hv1, pluginStateVersion]
  · have hv1 : ¬ (readState w).1.version = 1 := hv
    simp only [ne_eq, hv, not_false_eq_true, if_true, hv1, true_implies, false_implies,
      and_true, true_and]
    exact ⟨_, rfl, rfl, rfl⟩

/-- C16 (amended) at a concrete input: the reader reports version 2 and a decode error;
Handle returns a RetryableFailure with code CorruptedPluginState and calls nothing else. -/
theorem C16_read_error_witness :
    (HandleLogged
        (readsState { version := 2, err := some (TaskError.other "decode"),
                      state := { Phase := 0 } })
        (endsWith queuedOutcome) (endsWith runningOutcome) putSucceeds ()).2.2
      = [Event.readState] ∧
    ∃ t, (HandleLogged
        (readsState { version := 2, err := some (TaskError.other "decode"),
                      state := { Phase := 0 } })
        (endsWith queuedOutcome) (endsWith runningOutcome) putSucceeds ()).1
          = CallOutcome.returned t none ∧
      t.info.phase = Phase.RetryableFailure ∧ t.info.code = "CorruptedPluginState" :=
  have h := C16_read_error
    (readsState { version := 2, err := some (TaskError.other "decode"), state := { Phase := 0 } })
    (endsWith queuedOutcome) (endsWith runningOutcome) putSucceeds ()
    (TaskError.other "decode") rfl
  ⟨h.1, h.2.2.1 (by decide)⟩

end K8s

namespace K8s

/-! ## Launching and checking the resource -/

theorem AddObjectMetadata_Namespace (taskCtx : TaskExecutionMetadata) (o : Resource)
    (cfg : K8sPluginConfig) : (AddObjectMetadata taskCtx o cfg).Namespace = taskCtx.Namespace := by
  unfold AddObjectMetadata
  split <;> rfl

theorem AddObjectMetadata_Name (taskCtx : TaskExecutionMetadata) (o : Resource)
    (cfg : K8sPluginConfig) : (AddObjectMetadata taskCtx o cfg).Name = taskCtx.GeneratedName := by
  unfold AddObjectMetadata
  split <;> rfl

theorem AddObjectMetadata_Finalizers (taskCtx : TaskExecutionMetadata) (o : Resource)
    (cfg : K8sPluginConfig) :
    (AddObjectMetadata taskCtx o cfg).Finalizers =
      if cfg.InjectFinalizer then o.Finalizers ++ [finalizer] else o.Finalizers := by
  unfold AddObjectMetadata
  split <;> rfl

theorem hasPrefixChars_append (p s : List Char) : hasPrefixChars (p ++ s) p = true := by
  induction p with
  | nil => cases s <;> rfl
  | cons c p ih => simpa [hasPrefixChars] using ih

theorem containsChars_of_hasPrefixChars (s sub : List Char)
    (h : hasPrefixChars s sub = true) : containsChars s sub = true := by
  cases s with
  | nil => simpa [containsChars] using h
  | cons c s => simp [containsChars, h]

theorem containsChars_append_left (a s sub : List Char) (h : containsChars s sub = true) :
    containsChars (a ++ s) sub = true := by
  induction a with
  | nil => simpa using h
  | cons c a ih => simp [containsChars, ih]

/-- A text contains each of the pieces it was concatenated from. -/
theorem stringsContains_middle (a b c : String) : stringsContains (a ++ b ++ c) b = true := by
  unfold stringsContains
  have : (a ++ b ++ c).toList = a.toList ++ (b.toList ++ c.toList) := by
    simp [String.toList, String.data_append, List.append_assoc]
  rw [this]
  exact containsChars_append_left _ _ _
    (containsChars_of_hasPrefixChars _ _ (hasPrefixChars_append _ _))

/-- C17 (the code at the failing inputs). A pod with no declared limit is launched through
a registry without handler for its key; the handler is created at time 0 and called at
time 1, the create call is attempted (the call counter becomes 1) and fails, once with a
request-entity-too-large error and once with a forbidden error that is no quota
rejection. In both cases LaunchResource returns the transition WaitingForResources with a
nil error, whether or not the error classification looks through the wrapping error. -/
theorem C17_launch_failures_wait_for_resources (unwrap : Bool) :
    IsResourceQuotaExceeded forbiddenRejection = false ∧
    (LaunchResource unwrap parseSmall [] injectingConfig sampleMetadata
        (Except.ok (samplePod [])) (createFails tooLargeRejection) 0 1 2 [] 0).outcome
      = CallOutcome.returned
          (DoTransition
            (PhaseInfoWaitingForResources "failed to launch job, resource quota exceeded."))
          none ∧
    (LaunchResource unwrap parseSmall [] injectingConfig sampleMetadata
        (Except.ok (samplePod [])) (createFails tooLargeRejection) 0 1 2 [] 0).world = 1 ∧
    (LaunchResource unwrap parseSmall [] injectingConfig sampleMetadata
        (Except.ok (samplePod [])) (createFails forbiddenRejection) 0 1 2 [] 0).outcome
      = CallOutcome.returned
          (DoTransition
            (PhaseInfoWaitingForResources "failed to launch job, resource quota exceeded."))
          none ∧
    (LaunchResource unwrap parseSmall [] injectingConfig sampleMetadata
        (Except.ok (samplePod [])) (createFails forbiddenRejection) 0 1 2 [] 0).world = 1 := by
  cases unwrap
  · exact ⟨by decide, rfl, rfl, rfl, rfl⟩
  · exact ⟨by decide, rfl, rfl, rfl, rfl⟩

end K8s

namespace K8s

/-- C18. When the resource is fetched and the phase function of the plugin returns a phase
without error: a phase that is not terminal on an object that carries a deletion timestamp
gives the RetryableFailure "terminated in the background" with nil error; a phase other
than Success that is terminal, or that comes with an object without deletion timestamp, is
returned unchanged with nil error. -/
theorem C18_check_background_deletion {W : Type} (cfg : K8sPluginConfig)
    (taskCtx : TaskExecutionMetadata) (identity : Except TaskError Resource)
    (clientGet : String → String → W → Except K8sError Resource × W)
    (GetTaskPhase : Resource → W → (Except TaskError PhaseInfo × Option OutputReader) × W)
    (putOutputs : OutputReader → W → Option TaskError × W) (w w1 w2 : W)
    (o0 fetched : Resource) (p : PhaseInfo) (ow : Option OutputReader)
    (hid : identity = Except.ok o0)
    (hget : clientGet taskCtx.Namespace taskCtx.GeneratedName w = (Except.ok fetched, w1))
    (hphase : GetTaskPhase fetched w1 = ((Except.ok p, ow), w2)) :
    (p.phase.IsTerminal = false → fetched.DeletionTimestamp.isSome = true →
      (CheckResourcePhase cfg taskCtx identity clientGet GetTaskPhase putOutputs w).outcome
        = CallOutcome.returned
            (DoTransition (PhaseInfoRetryableFailure "tachycardia"
              ("object [" ++ NamespacedName taskCtx.Namespace taskCtx.GeneratedName ++
                "] terminated in the background, manually"))) none) ∧
    (p.phase ≠ Phase.Success →
      (p.phase.IsTerminal = true ∨ fetched.DeletionTimestamp = none) →
      (CheckResourcePhase cfg taskCtx identity clientGet GetTaskPhase putOutputs w).outcome
        = CallOutcome.returned (DoTransition p) none) := by
  subst hid
  unfold CheckResourcePhase
  simp only [AddObjectMetadata_Namespace, AddObjectMetadata_Name, hget, hphase]
  constructor
  · intro hnt hdel
    have hns : p.phase ≠ Phase.Success := by
      intro h
      rw [h] at hnt
      simp [Phase.IsTerminal] at hnt
    simp [hns, hnt, hdel]
  · intro hns hor
    rcases hor with hterm | hnodel
    · simp [hns, hterm]
    · simp [hns, hnodel]

/-- C18 at a concrete input: the pod ns/task-0 is fetched with a deletion timestamp while
the plugin reports it running. -/
theorem C18_check_background_deletion_witness :
    (CheckResourcePhase injectingConfig sampleMetadata (Except.ok (samplePod []))
        (getYields (fetchedPod (some 5))) (phaseIs runningInfo) putOutputsSucceeds 0).outcome
      = CallOutcome.returned
          (DoTransition (PhaseInfoRetryableFailure "tachycardia"
            ("object [" ++ NamespacedName sampleMetadata.Namespace sampleMetadata.GeneratedName ++
              "] terminated in the background, manually"))) none :=
  (C18_check_background_deletion injectingConfig sampleMetadata (Except.ok (samplePod []))
    (getYields (fetchedPod (some 5))) (phaseIs runningInfo) putOutputsSucceeds 0 1 2
    (samplePod []) (fetchedPod (some 5)) runningInfo none rfl rfl rfl).1 rfl rfl

/-- C19. When the fetch of the resource fails with a not-found, gone or expired error, the
result is a RetryableFailure transition with nil error whose message contains the
namespaced name namespace/name of the resource, and the phase function is not called: the
world is the one the fetch left. For every other fetch error the result is the unknown
transition together with that error. -/
theorem C19_check_fetch_error {W : Type} (cfg : K8sPluginConfig)
    (taskCtx : TaskExecutionMetadata) (identity : Except TaskError Resource)
    (clientGet : String → String → W → Except K8sError Resource × W)
    (GetTaskPhase : Resource → W → (Except TaskError PhaseInfo × Option OutputReader) × W)
    (putOutputs : OutputReader → W → Option TaskError × W) (w w1 : W)
    (o0 : Resource) (err : K8sError)
    (hid : identity = Except.ok o0)
    (hget : clientGet taskCtx.Namespace taskCtx.GeneratedName w = (Except.error err, w1)) :
    (CheckResourcePhase cfg taskCtx identity clientGet GetTaskPhase putOutputs w).world = w1 ∧
    (IsK8sObjectNotExists err = true →
      ∃ t, (CheckResourcePhase cfg taskCtx identity clientGet GetTaskPhase putOutputs w).outcome
          = CallOutcome.returned t none ∧
        t.info.phase = Phase.RetryableFailure ∧
        stringsContains t.info.reason (taskCtx.Namespace ++ "/" ++ taskCtx.GeneratedName)
          = true) ∧
    (IsK8sObjectNotExists err = false →
      (CheckResourcePhase cfg taskCtx identity clientGet GetTaskPhase putOutputs w).outcome
        = CallOutcome.returned UnknownTransition (some (TaskError.k8s err))) := by
  subst hid
  unfold CheckResourcePhase
  simp only [AddObjectMetadata_Namespace, AddObjectMetadata_Name, hget]
  refine ⟨?_, ?_, ?_⟩
  · by_cases hne : IsK8sObjectNotExists err = true
    · simp [hne]
    · simp [hne]
  · intro hne
    simp only [hne, if_true]
    refine ⟨_, rfl, rfl, ?_⟩
    simp only [DoTransition, PhaseInfoRetryableFailure, NamespacedName]
    have h := stringsContains_middle "resource not found, name ["
      (taskCtx.Namespace ++ "/" ++ taskCtx.GeneratedName) ("]. reason: " ++ err.message)
    simpa [String.append_assoc] using h
  · intro hne
    simp [hne]

/-- C19 at a concrete input: the fetch of ns/task-0 reports not-found; the phase function
is not called (the call counter is 1, the fetch). -/
theorem C19_check_fetch_error_witness :
    (CheckResourcePhase injectingConfig sampleMetadata (Except.ok (samplePod []))
        (getFails notFoundError) (phaseIs runningInfo) putOutputsSucceeds 0).world = 1 ∧
    ∃ t, (CheckResourcePhase injectingConfig sampleMetadata (Except.ok (samplePod []))
        (getFails notFoundError) (phaseIs runningInfo) putOutputsSucceeds 0).outcome
          = CallOutcome.returned t none ∧
      t.info.phase = Phase.RetryableFailure ∧
      stringsContains t.info.reason
        (sampleMetadata.Namespace ++ "/" ++ sampleMetadata.GeneratedName) = true :=
  have h := C19_check_fetch_error injectingConfig sampleMetadata (Except.ok (samplePod []))
    (getFails notFoundError) (phaseIs runningInfo) putOutputsSucceeds 0 1 (samplePod [])
    notFoundError rfl rfl
  ⟨h.1, h.2.1 (by decide)⟩

/-- C20 (counterexample). With finalizer injection configured, a resource whose finalizers
already are the one token flyte/flytek8s comes out of AddObjectMetadata with the token
twice, so its list is not left unchanged; and applying AddObjectMetadata twice to a
resource without finalizers gives the token twice, where one application gives it once. -/
theorem C20_finalizer_idempotent_counterexample :
    injectingConfig.InjectFinalizer = true ∧
    (AddObjectMetadata sampleMetadata (samplePod ["flyte/flytek8s"]) injectingConfig).Finalizers
      = ["flyte/flytek8s", "flyte/flytek8s"] ∧
    (AddObjectMetadata sampleMetadata (samplePod ["flyte/flytek8s"]) injectingConfig).Finalizers
      ≠ (samplePod ["flyte/flytek8s"]).Finalizers ∧
    (AddObjectMetadata sampleMetadata
        (AddObjectMetadata sampleMetadata (samplePod []) injectingConfig)
        injectingConfig).Finalizers = ["flyte/flytek8s", "flyte/flytek8s"] ∧
    (AddObjectMetadata sampleMetadata (samplePod []) injectingConfig).Finalizers
      = ["flyte/flytek8s"] := by
  refine ⟨rfl, by decide, by decide, by decide, by decide⟩

/-- C20 (amended). With finalizer injection configured, AddObjectMetadata appends the token
flyte/flytek8s to the finalizer list whether or not the list already contains it: the list
afterwards is the list before followed by the token. So the token occurs once more than
before, exactly once on a resource whose finalizers did not contain it and twice after two
applications to such a resource. -/
theorem C20_finalizer_appended (taskCtx : TaskExecutionMetadata) (o : Resource)
    (cfg : K8sPluginConfig) (hinject : cfg.InjectFinalizer = true) :
    (AddObjectMetadata taskCtx o cfg).Finalizers = o.Finalizers ++ [finalizer] ∧
    (AddObjectMetadata taskCtx o cfg).Finalizers.count finalizer
      = o.Finalizers.count finalizer + 1 ∧
    (finalizer ∉ o.Finalizers →
      (AddObjectMetadata taskCtx o cfg).Finalizers.count finalizer = 1 ∧
      (AddObjectMetadata taskCtx (AddObjectMetadata taskCtx o cfg) cfg).Finalizers.count
        finalizer = 2) := by
  have h1 : (AddObjectMetadata taskCtx o cfg).Finalizers = o.Finalizers ++ [finalizer] := by
    rw [AddObjectMetadata_Finalizers]
    simp [hinject]
  have h2 : (AddObjectMetadata taskCtx (AddObjectMetadata taskCtx o cfg) cfg).Finalizers
      = o.Finalizers ++ [finalizer] ++ [finalizer] := by
    rw [AddObjectMetadata_Finalizers, h1]
    simp [hinject]
  refine ⟨h1, ?_, ?_⟩
  · rw [h1]
    simp [List.count_append]
  · intro hnot
    have hzero : o.Finalizers.count finalizer = 0 := List.count_eq_zero.mpr hnot
    rw [h1, h2]
    simp [List.count_append, hzero]

/-- C20 (amended) at a concrete input: a pod built without finalizers gets the token
once. -/
theorem C20_finalizer_appended_witness :
    (AddObjectMetadata sampleMetadata (samplePod []) injectingConfig).Finalizers
      = (samplePod []).Finalizers ++ [finalizer] :=
  (C20_finalizer_appended sampleMetadata (samplePod []) injectingConfig rfl).1

end K8s

namespace K8s

/-! ## Metadata precedence and finalizers -/

/-- C21 (the code at the failing input). The configuration has the default annotation and
the default label team = platform, the task execution supplies the annotation and the
label team = data. After AddObjectMetadata the annotation team has the value supplied by
the task execution, data, but the label team has the default value, platform: for labels
the defaults are merged last and override. -/
theorem C21_default_label_overrides :
    GoMap.load teamMetadata.Labels "team" = some "data" ∧
    GoMap.load defaultsConfig.DefaultLabels "team" = some "platform" ∧
    GoMap.load (AddObjectMetadata teamMetadata (samplePod []) defaultsConfig).Annotations "team"
      = some "data" ∧
    GoMap.load (AddObjectMetadata teamMetadata (samplePod []) defaultsConfig).Labels "team"
      = some "platform" := by
  refine ⟨by decide, by decide, by decide, by decide⟩

/-- C22. On a resource whose finalizer list is empty ClearFinalizers issues no Update call
and returns nil. On a resource with a non-empty list it empties the list and issues
exactly one Update, of the emptied object; it returns nil when the Update succeeds or
fails with not-found, gone or expired, and the error otherwise. Finalize makes no client
call and returns nil when finalizer injection is not configured; with injection it returns
nil when the fetch reports not-found, gone or expired, and when the fetched object has no
finalizers it returns nil without an Update call. -/
theorem C22_clear_finalizers {W : Type} (cfg : K8sPluginConfig)
    (taskCtx : TaskExecutionMetadata) (identity : Except TaskError Resource)
    (clientGet : String → String → W → Except K8sError Resource × W)
    (clientUpdate : Resource → W → Option K8sError × W) (o : Resource) (w : W) (n : Nat) :
    (o.Finalizers = [] →
      (ClearFinalizers (countedCall clientUpdate) o (w, n)).world = (w, n) ∧
      (ClearFinalizers (countedCall clientUpdate) o (w, n)).err = none ∧
      (ClearFinalizers (countedCall clientUpdate) o (w, n)).resource = o) ∧
    (o.Finalizers ≠ [] →
      (ClearFinalizers (countedCall clientUpdate) o (w, n)).world
        = ((clientUpdate { o with Finalizers := [] } w).2, n + 1) ∧
      (ClearFinalizers (countedCall clientUpdate) o (w, n)).resource
        = { o with Finalizers := [] } ∧
      (ClearFinalizers (countedCall clientUpdate) o (w, n)).err
        = match (clientUpdate { o with Finalizers := [] } w).1 with
          | none => none
          | some err => if IsK8sObjectNotExists err then none else some err) ∧
    (cfg.InjectFinalizer = false →
      Finalize cfg taskCtx identity clientGet clientUpdate w = (none, w)) ∧
    (cfg.InjectFinalizer = true →
      ∀ (o0 : Resource) (err : K8sError) (w1 : W), identity = Except.ok o0 →
        clientGet taskCtx.Namespace taskCtx.GeneratedName w = (Except.error err, w1) →
        IsK8sObjectNotExists err = true →
        Finalize cfg taskCtx identity clientGet clientUpdate w = (none, w1)) ∧
    (cfg.InjectFinalizer = true →
      ∀ (o0 fetched : Resource) (w1 : W), identity = Except.ok o0 →
        clientGet taskCtx.Namespace taskCtx.GeneratedName w = (Except.ok fetched, w1) →
        fetched.Finalizers = [] →
        Finalize cfg taskCtx identity clientGet clientUpdate w = (none, w1)) := by
  refine ⟨?_, ?_, ?_, ?_, ?_⟩
  · intro hempty
    unfold ClearFinalizers
    simp [hempty]
  · intro hne
    have hlen : o.Finalizers.length > 0 := List.length_pos.mpr hne
    unfold ClearFinalizers
    simp only [hlen, if_true, countedCall]
    cases hup : (clientUpdate { o with Finalizers := [] } w).1 with
    | none => simp
    | some err =>
      by_cases hnot : IsK8sObjectNotExists err = true
      · simp [hnot]
      · simp [hnot]
  · intro hoff
    unfold Finalize
    simp [hoff]
  · intro hon o0 err w1 hid hget hnot
    subst hid
    unfold Finalize
    simp [hon, AddObjectMetadata_Namespace, AddObjectMetadata_Name, hget, hnot]
  · intro hon o0 fetched w1 hid hget hempty
    subst hid
    unfold Finalize
    simp [hon, AddObjectMetadata_Namespace, AddObjectMetadata_Name, hget, ClearFinalizers,
      hempty]

/-- C22 at concrete inputs: a pod without finalizers needs no Update (the counter stays 0);
the fetched pod with the finalizer token takes one Update and comes out without
finalizers. -/
theorem C22_clear_finalizers_witness :
    (ClearFinalizers (countedCall updateSucceeds) (samplePod []) ((), 0)).world = ((), 0) ∧
    (ClearFinalizers (countedCall updateSucceeds) (fetchedPod none) ((), 0)).world
      = ((updateSucceeds { fetchedPod none with Finalizers := [] } ()).2, 0 + 1) :=
  have h := C22_clear_finalizers injectingConfig sampleMetadata (Except.ok (samplePod []))
    (fun _ _ w => (Except.ok (samplePod []), w)) updateSucceeds (samplePod []) () 0
  have h2 := C22_clear_finalizers injectingConfig sampleMetadata (Except.ok (samplePod []))
    (fun _ _ w => (Except.ok (samplePod []), w)) updateSucceeds (fetchedPod none) () 0
  ⟨(h.1 rfl).1, (h2.2.1 (by decide)).1⟩

end K8s

namespace K8s

/-! ## The watch binding -/

/-- C23 (counterexample). An update event that carries no old object and a new object
ns/task-0 with token "5", controlled by a workflow, passes the predicate and the owner is
enqueued, although there is no old token from which the new one could differ. -/
theorem C23_update_without_old_enqueued_counterexample :
    watchPredicate "flyteworkflow"
        (WatchEvent.update { MetaOld := none, MetaNew := some (ownedPod "5") }) = some true ∧
    (¬ ∃ old, (UpdateEvent.mk none (some (ownedPod "5"))).MetaOld = some old ∧
        old.ResourceVersion ≠ (ownedPod "5").ResourceVersion) ∧
    watchDeliver "flyteworkflow" emptyWatch
        (WatchEvent.update { MetaOld := none, MetaNew := some (ownedPod "5") })
      = some { enqueued := ["ns/task-0"], updateCount := 1, droppedUpdateCount := 0,
               genericCount := 0 } := by
  refine ⟨by decide, ?_, by decide⟩
  rintro ⟨old, hold, _⟩
  cases hold

/-- C23 (amended). The Create and Delete predicates reject every event, so such an event
changes nothing. For every Update event the owner is enqueued only if the new object's
controlling owner reference has the expected owner kind and either the event carries no
old object or the new object's version token differs from the old object's token; what
is enqueued is then the namespaced name of the new object, once. An Update event that
passes the predicate with equal old and new tokens is not enqueued and increments the
dropped-update counter exactly once, leaving the other counters as they were. -/
theorem C23_watch_update_filter (ownerKind : String) (s : WatchState) :
    (∀ o, watchPredicate ownerKind (WatchEvent.create o) = some false ∧
      watchPredicate ownerKind (WatchEvent.delete o) = some false ∧
      watchDeliver ownerKind s (WatchEvent.create o) = some s ∧
      watchDeliver ownerKind s (WatchEvent.delete o) = some s) ∧
    (∀ evt s1, watchDeliver ownerKind s (WatchEvent.update evt) = some s1 →
      s1.enqueued ≠ s.enqueued →
      ∃ new, evt.MetaNew = some new ∧
        (∃ ref, GetControllerOf new = some ref ∧ ref.Kind = ownerKind) ∧
        (evt.MetaOld = none ∨
          ∃ old, evt.MetaOld = some old ∧ old.ResourceVersion ≠ new.ResourceVersion) ∧
        s1.enqueued = s.enqueued ++ [NamespacedName new.Namespace new.Name]) ∧
    (∀ old new, workflowParentPredicate ownerKind new = true →
      old.ResourceVersion = new.ResourceVersion →
      watchDeliver ownerKind s (WatchEvent.update { MetaOld := some old, MetaNew := some new })
        = some { s with droppedUpdateCount := s.droppedUpdateCount + 1 }) := by
  refine ⟨fun o => ⟨rfl, rfl, rfl, rfl⟩, ?_, ?_⟩
  · intro evt s1 hdeliver hchanged
    obtain ⟨mold, mnew⟩ := evt
    cases mnew with
    | none => simp [watchDeliver, watchPredicate] at hdeliver
    | some new =>
      by_cases hpred : workflowParentPredicate ownerKind new = true
      · have hctrl : ∃ ref, GetControllerOf new = some ref ∧ ref.Kind = ownerKind := by
          unfold workflowParentPredicate at hpred
          cases hc : GetControllerOf new with
          | none => rw [hc] at hpred; simp at hpred
          | some ref => rw [hc] at hpred; exact ⟨ref, rfl, by simpa using hpred⟩
        cases mold with
        | none =>
          simp only [watchDeliver, watchPredicate, hpred, watchHandler, Option.some.injEq]
            at hdeliver
          subst hdeliver
          exact ⟨new, rfl, hctrl, Or.inl rfl, rfl⟩
        | some old =>
          by_cases hrv : old.ResourceVersion = new.ResourceVersion
          · simp only [watchDeliver, watchPredicate, hpred, watchHandler, hrv, ne_eq,
              not_true_eq_false, if_false, Option.some.injEq] at hdeliver
            subst hdeliver
            exact absurd rfl hchanged
          · simp only [watchDeliver, watchPredicate, hpred, watchHandler, hrv, ne_eq,
              not_false_eq_true, if_true, Option.some.injEq] at hdeliver
            subst hdeliver
            exact ⟨new, rfl, hctrl, Or.inr ⟨old, rfl, hrv⟩, rfl⟩
      · simp only [watchDeliver, watchPredicate, hpred, Option.some.injEq] at hdeliver
        subst hdeliver
        exact absurd rfl hchanged
  · intro old new hpred hrv
    simp [watchDeliver, watchPredicate, hpred, watchHandler, hrv]

/-- C23 (amended) at concrete inputs: an update of ns/task-0 from token "4" to "5" is
enqueued once; one from "5" to "5" is dropped and counted. -/
theorem C23_watch_update_filter_witness :
    watchDeliver "flyteworkflow" emptyWatch
        (WatchEvent.update { MetaOld := some (ownedPod "5"), MetaNew := some (ownedPod "5") })
      = some { emptyWatch with droppedUpdateCount := emptyWatch.droppedUpdateCount + 1 } ∧
    watchDeliver "flyteworkflow" emptyWatch
        (WatchEvent.update { MetaOld := some (ownedPod "4"), MetaNew := some (ownedPod "5") })
      = some { enqueued := ["ns/task-0"], updateCount := 1, droppedUpdateCount := 0,
               genericCount := 0 } :=
  ⟨(C23_watch_update_filter "flyteworkflow" emptyWatch).2.2 (ownedPod "5") (ownedPod "5")
      (by decide) rfl,
    by decide⟩

end K8s

namespace K8s

/-! ## The blocker as a step function, and the errors of the combined handler -/

/-- The step of `SimpleBackOffBlocker.handle`: inside the window the call is refused and
nothing changes; past it the operation runs once, a success resets the blocker and a
failure raises the exponent and sets the end of the window to the time read after the
operation plus the computed delay. -/
theorem SimpleBackOffBlocker.handle_step {W : Type} (b : SimpleBackOffBlocker) (ovf : Int)
    (now later : Time) (operation : W → Option K8sError × W) (w : W) :
    (¬ b.nextEligibleTime < now →
      SimpleBackOffBlocker.handle b ovf now later operation w
        = { err := some (StdError.errorf "BackOff" "need to wait more" []), blocker := b,
            world := w }) ∧
    (b.nextEligibleTime < now → (operation w).1 = none →
      SimpleBackOffBlocker.handle b ovf now later operation w
        = { err := none, blocker := { backOffExponent := 0, nextEligibleTime := later },
            world := (operation w).2 }) ∧
    (b.nextEligibleTime < now → ∀ err, (operation w).1 = some err →
      SimpleBackOffBlocker.handle b ovf now later operation w
        = { err := some (StdError.wrapf "BackOff" err "Failed to still not"),
            blocker := { backOffExponent := wrapInt64 (b.backOffExponent + 1),
                         nextEligibleTime := later + backOffDuration ovf b.backOffExponent },
            world := (operation w).2 }) := by
  refine ⟨?_, ?_, ?_⟩
  · intro hin
    simp [SimpleBackOffBlocker.handle, Time.Before, hin]
  · intro hpast hok
    rcases hop : operation w with ⟨e, w1⟩
    rw [hop] at hok
    simp only at hok
    subst hok
    simp [SimpleBackOffBlocker.handle, Time.Before, hpast, hop]
  · intro hpast err hfail
    rcases hop : operation w with ⟨e, w1⟩
    rw [hop] at hfail
    simp only at hfail
    subst hfail
    simp [SimpleBackOffBlocker.handle, Time.Before, hpast, hop]

/-- The computed delay never exceeds the cap of ten minutes. -/
theorem backOffDuration_le_maxBackoffTime (ovf n : Int) :
    backOffDuration ovf n ≤ maxBackoffTime := by
  unfold backOffDuration
  split
  · exact le_refl _
  · rename_i h
    exact not_lt.mp h

/-- C24 (the code at the failing input). Four failures in a row, on a platform where the
conversion of an out-of-range float yields the smallest int64. The calls are made at times
1, 10, 3000000000 and 700000000000 ns, each after the end of the window then in force, so
each invokes the operation. The first three raise the exponent to 1, 2, 3 and set the end
of the window after the time of the call. The fourth, at exponent 3, raises the exponent
to 4 but sets nextEligibleTime to 700000000000 - 2^63, a time before the call: the window
does not move to a time later than now. -/
theorem C24_fourth_failure_moves_window_back :
    failStep amd64Overflow { backOffExponent := 0, nextEligibleTime := 0 } 1
      = { backOffExponent := 1, nextEligibleTime := 2 } ∧
    failStep amd64Overflow { backOffExponent := 1, nextEligibleTime := 2 } 10
      = { backOffExponent := 2, nextEligibleTime := 2000000010 } ∧
    failStep amd64Overflow { backOffExponent := 2, nextEligibleTime := 2000000010 } 3000000000
      = { backOffExponent := 3, nextEligibleTime := 603000000000 } ∧
    failStep amd64Overflow { backOffExponent := 3, nextEligibleTime := 603000000000 }
        700000000000
      = { backOffExponent := 4, nextEligibleTime := 700000000000 - 2 ^ 63 } ∧
    (failStep amd64Overflow { backOffExponent := 3, nextEligibleTime := 603000000000 }
        700000000000).nextEligibleTime < 700000000000 := by
  refine ⟨by decide, by decide, by decide, by decide, by decide⟩

/-- C25 (the code at the failing input). At exponent 3, reached by three failures, the
power (2 * 10^9)^3 exceeds the int64 range; where the conversion yields the smallest int64
the computed delay is -2^63 ns, which is not positive. At exponents 0, 1 and 2 the delay
is 1 ns, 2 s and the cap of 600 s. -/
theorem C25_delay_negative_at_exponent_three :
    backOffDuration amd64Overflow 0 = 1 ∧
    backOffDuration amd64Overflow 1 = 2000000000 ∧
    backOffDuration amd64Overflow 2 = 600000000000 ∧
    backOffDuration amd64Overflow 3 = -(2 ^ 63) ∧
    ¬ 0 < backOffDuration amd64Overflow 3 := by
  refine ⟨by decide, by decide, by decide, by decide, by decide⟩

end K8s

namespace K8s

/-- The result of `ResourceAwareBackOffHandler.handle` when the call is refused. -/
theorem ResourceAwareBackOffHandler.handle_refused {W : Type} (h : ResourceAwareBackOffHandler)
    (mustParse : String → Option Quantity) (now resetNow : Time)
    (operation : W → Option K8sError × W) (w : W) (requestedResourceList : ResourceList)
    (hrefuse : (!h.toSimpleBackOffBlocker.isActive now ||
      h.toResourceCeilings.isEligible requestedResourceList) = false) :
    h.handle mustParse now resetNow operation w requestedResourceList
      = { outcome := Outcome.returned
            (some (StdError.errorf "BackOff" backOffActiveMessage
              [now, h.toSimpleBackOffBlocker.getBlockExpirationTime])),
          handler := h, world := w } := by
  unfold ResourceAwareBackOffHandler.handle
  rw [if_neg (by simp [hrefuse])]

/-- The result of `ResourceAwareBackOffHandler.handle` when the operation is attempted, by
cases on how the operation ends. -/
theorem ResourceAwareBackOffHandler.handle_attempted {W : Type}
    (h : ResourceAwareBackOffHandler) (mustParse : String → Option Quantity)
    (now resetNow : Time) (operation : W → Option K8sError × W) (w : W)
    (requestedResourceList : ResourceList)
    (hattempt : (!h.toSimpleBackOffBlocker.isActive now ||
      h.toResourceCeilings.isEligible requestedResourceList) = true) :
    h.handle mustParse now resetNow operation w requestedResourceList =
      match (operation w).1 with
      | none =>
        { outcome := Outcome.returned none,
          handler :=
            { toSimpleBackOffBlocker := h.toSimpleBackOffBlocker.reset resetNow,
              toResourceCeilings := h.toResourceCeilings.resetAll },
          world := (operation w).2 }
      | some err =>
        if IsResourceQuotaExceeded err then
          match GetResourceAndQuantityRequested mustParse err with
          | Except.error p =>
            { outcome := Outcome.panicked p, handler := h, world := (operation w).2 }
          | Except.ok newCeiling =>
            { outcome := Outcome.returned
                (some (StdError.wrapf "BackOff" err "Failed to execute the operation")),
              handler :=
                { h with toResourceCeilings := h.toResourceCeilings.updateAll newCeiling },
              world := (operation w).2 }
        else
          { outcome := Outcome.returned
              (some (StdError.wrapf "BackOff" err "Failed to execute the operation")),
            handler := h, world := (operation w).2 } := by
  unfold ResourceAwareBackOffHandler.handle
  rw [if_pos hattempt]
  rcases operation w with ⟨oe, w1⟩
  cases oe <;> rfl

/-- Every error that `ResourceAwareBackOffHandler.handle` returns carries the code BackOff,
and the call that returns it leaves the exponent and nextEligibleTime as they were. -/
theorem ResourceAwareBackOffHandler.handle_returned_error {W : Type}
    (h : ResourceAwareBackOffHandler) (mustParse : String → Option Quantity)
    (now resetNow : Time) (operation : W → Option K8sError × W) (w : W)
    (requestedResourceList : ResourceList) (e : StdError)
    (hret : (h.handle mustParse now resetNow operation w requestedResourceList).outcome
      = Outcome.returned (some e)) :
    IsBackoffError e = true ∧
    (h.handle mustParse now resetNow operation w
      requestedResourceList).handler.toSimpleBackOffBlocker = h.toSimpleBackOffBlocker := by
  by_cases hattempt : (!h.toSimpleBackOffBlocker.isActive now ||
      h.toResourceCeilings.isEligible requestedResourceList) = true
  · rw [ResourceAwareBackOffHandler.handle_attempted h mustParse now resetNow operation w
      requestedResourceList hattempt] at hret ⊢
    cases hoe : (operation w).1 with
    | none => rw [hoe] at hret; simp at hret
    | some err =>
      rw [hoe] at hret
      simp only at hret ⊢
      by_cases hq : IsResourceQuotaExceeded err = true
      · simp only [hq, if_true] at hret ⊢
        cases hparse : GetResourceAndQuantityRequested mustParse err with
        | error p => rw [hparse] at hret; simp at hret
        | ok newCeiling =>
          rw [hparse] at hret
          simp only [Outcome.returned.injEq, Option.some.injEq] at hret
          subst hret
          exact ⟨rfl, rfl⟩
      · simp only [hq, if_false, Bool.false_eq_true, Outcome.returned.injEq,
          Option.some.injEq] at hret
        subst hret
        refine ⟨rfl, ?_⟩
        simp [hq]
  · have hrefuse : (!h.toSimpleBackOffBlocker.isActive now ||
        h.toResourceCeilings.isEligible requestedResourceList) = false := by
      simpa using hattempt
    rw [ResourceAwareBackOffHandler.handle_refused h mustParse now resetNow operation w
      requestedResourceList hrefuse] at hret ⊢
    simp only [Outcome.returned.injEq, Option.some.injEq] at hret
    subst hret
    exact ⟨rfl, rfl⟩

/-- An error with the code BackOff that is not recognised as already-exists makes
`LaunchResource` return the transition WaitingForResources with a nil error. -/
theorem launchFailure_of_backoff (unwrap : Bool) (err : StdError)
    (hcode : IsBackoffError err = true)
    (hnot : err.reason unwrap ≠ StatusReason.AlreadyExists) :
    launchFailure unwrap err
      = CallOutcome.returned
          (DoTransition
            (PhaseInfoWaitingForResources "failed to launch job, resource quota exceeded."))
          none := by
  unfold launchFailure
  simp [hnot, hcode]

/-- C26 (the code at the failing input). A pod with no declared limit is launched through
a registry without handler for its key; the create call is attempted once and fails with a
quota rejection whose text names the requested limit. The rejection is not an
already-exists error, yet LaunchResource does not return WaitingForResources: the parser of
the rejection text panics with an index out of range and LaunchResource panics with it,
whether or not the error classification looks through wrapping errors. -/
theorem C26_quota_rejection_panics_launch (unwrap : Bool) :
    quotaRejection.reason ≠ StatusReason.AlreadyExists ∧
    (LaunchResource unwrap parseSmall [] injectingConfig sampleMetadata
        (Except.ok (samplePod [])) (createFails quotaRejection) 0 1 2 [] 0).outcome
      = CallOutcome.panicked (RuntimePanic.parser (Panic.indexOutOfRange 0 0)) ∧
    (LaunchResource unwrap parseSmall [] injectingConfig sampleMetadata
        (Except.ok (samplePod [])) (createFails quotaRejection) 0 1 2 [] 0).world = 1 := by
  cases unwrap
  · exact ⟨by decide, by decide, by decide⟩
  · exact ⟨by decide, by decide, by decide⟩

/-- C27. Every call of the combined handler that returns an error, be it refused or
attempted and failed, for quota or for another reason, leaves the backoff exponent and
nextEligibleTime as they were before the call. -/
theorem C27_error_keeps_blocker {W : Type} (h : ResourceAwareBackOffHandler)
    (mustParse : String → Option Quantity) (now resetNow : Time)
    (operation : W → Option K8sError × W) (w : W) (requestedResourceList : ResourceList)
    (e : StdError)
    (hret : (h.handle mustParse now resetNow operation w requestedResourceList).outcome
      = Outcome.returned (some e)) :
    (h.handle mustParse now resetNow operation w
      requestedResourceList).handler.backOffExponent = h.backOffExponent ∧
    (h.handle mustParse now resetNow operation w
      requestedResourceList).handler.nextEligibleTime = h.nextEligibleTime := by
  have hb := (ResourceAwareBackOffHandler.handle_returned_error h mustParse now resetNow
    operation w requestedResourceList e hret).2
  exact ⟨congrArg SimpleBackOffBlocker.backOffExponent hb,
    congrArg SimpleBackOffBlocker.nextEligibleTime hb⟩

/-- C27 at a concrete input: with the window open until 10 and the ceiling cpu=1, a call
at time 5 with the request cpu=2 is attempted and fails with a forbidden error; the
exponent is still 1 and nextEligibleTime still 10. -/
theorem C27_error_keeps_blocker_witness :
    ((windowedHandler 1).handle parseSmall 5 6 (failsWith forbiddenRejection) ()
        [("cpu", 2)]).handler.backOffExponent = (windowedHandler 1).backOffExponent ∧
    ((windowedHandler 1).handle parseSmall 5 6 (failsWith forbiddenRejection) ()
        [("cpu", 2)]).handler.nextEligibleTime = (windowedHandler 1).nextEligibleTime :=
  C27_error_keeps_blocker (windowedHandler 1) parseSmall 5 6 (failsWith forbiddenRejection) ()
    [("cpu", 2)]
    (StdError.wrapf "BackOff" forbiddenRejection "Failed to execute the operation") rfl

end K8s
